import Mathlib

/-!
Verification development for the `atopile` model2 front end
(`src/atopile/model2/datamodel1.py`).

The file shallowly embeds the `Dizzy` tree walker: each `visitX` method of
the Python class becomes a Lean function of the same name taking the data
the method reads from its ANTLR context, threading an explicit compiler
state `St` and returning `Except Err (result × St)` (a Python `raise`
becomes `Except.error`).

The modules `atopile.model2.scope2`, `atopile.model2.types` and
`atopile.model2.errors` are not part of the sources; the pieces of them the
walker touches (`Scope`, `Class`/`Object`/`Attribute`, the built-in classes
and the error classes) are modelled from the specification, as marked on
each such definition.
-/

namespace Atopile

/-- A name key: `Dizzy.visitName` turns an all-digits token into a Python
`int`, so scope keys are either strings or integers. -/
inductive Key
  | str (s : String)
  | int (n : Int)
deriving DecidableEq, Repr

/-- Printable form of a key, used to rebuild the source's f-string error
messages. -/
def Key.text : Key → String
  | Key.str s => s
  | Key.int n => toString n

/-- Python truthiness of a key (`if not name:` in the source): `0` and the
empty string are falsy. -/
def Key.falsy : Key → Bool
  | Key.str s => s = ""
  | Key.int n => n = 0

/-- Modelled from the spec: the built-in classes of the missing
`atopile.model2.types` module (process-wide singletons; `Component`'s super
chain includes `Module`, and `Pin` and `Signal` are `Interface` subtypes). -/
inductive Builtin
  | MODULE
  | COMPONENT
  | PIN
  | SIGNAL
  | INTERFACE
  | LINK
deriving DecidableEq, Repr

/-- Modelled from the spec: a reference to a `types.Class` - either one of
the built-in singletons or a user class allocated by `make_subclass`
(identified by its index in the class store). -/
inductive ClassRef
  | builtin (b : Builtin)
  | user (i : Nat)
deriving DecidableEq, Repr

/-- Primitive assignable values (`int`, `float`, `str`, `bool`).  Float
literal tokens are kept as their text: no claim depends on float values, so
Python float arithmetic is not modelled. -/
inductive Prim
  | int (n : Int)
  | float (text : String)
  | str (s : String)
  | bool (b : Bool)
deriving DecidableEq, Repr

/-- Modelled from the spec: the values `Dizzy.visitAssign_stmt` stores in an
`Attribute.type_` slot - a `types.Class` instance (for objects), the Python
type `types.Class` itself (for classes), or a primitive type (`type(x)` for
literals; note a Python `bool` pattern-matches `int()` but `type(x)` is
still `bool`). -/
inductive TypeTag
  | cls (c : ClassRef)
  | classType
  | intTy
  | floatTy
  | strTy
  | boolTy
deriving DecidableEq, Repr

/-- An unwrapped entity: a `types.Object` instance (index into the object
store), a `types.Class`, or a primitive. -/
inductive Base
  | obj (o : Nat)
  | cls (c : ClassRef)
  | prim (p : Prim)
deriving DecidableEq, Repr

/-- A value a scope can map a name to: an entity, a `types.Attribute`
(a `type_` tag paired with a held value), or a nested `Scope` (stored as an
index into the scope store). -/
inductive Value
  | base (b : Base)
  | attr (type_ : TypeTag) (value : Base)
  | scope (s : Nat)
deriving DecidableEq, Repr

/-- Modelled from the spec: a `types.Object` instance.  `type_` is its
class (mutable only via the retype statement); `members` are its named
children, `anon` its anonymous children; `lstart`/`lend` model the `start`
and `end` fields `Dizzy.visitConnect_stmt` sets on `LinkObject`s. -/
structure ObjData where
  type_ : ClassRef
  members : List (Key × Value) := []
  anon : List Value := []
  lstart : Option Nat := none
  lend : Option Nat := none
deriving DecidableEq, Repr

/-- Modelled from the spec: a user `types.Class` made by
`Class.make_subclass(name, parent)`: a name, one super class, and the
members declared in its body. -/
structure UserClass where
  cname : Key
  csuper : ClassRef
  members : List (Key × Value) := []
  anon : List Value := []
deriving DecidableEq, Repr

/-- Modelled from the spec: a `scope2.Scope` record - an optional root
entity (a scope materialized over an object or class reads and writes that
entity's own storage), an optional parent for chained lookup, and a local
name table plus anonymous-item list used when there is no root. -/
structure ScopeData where
  root : Option Base := none
  parent : Option Nat := none
  table : List (Key × Value) := []
  anon : List Value := []
deriving DecidableEq, Repr

/-- Modelled from the spec: the error taxonomy.  `atoTypeError`,
`atoNameConflictError` and `atoCompileError` are the `errors` classes the
walker raises; `notImplementedError` is Python's `NotImplementedError`;
`nameNotFound` is the spec's NameNotFound condition signalled by a failed
scope lookup; `pyError` is a host-language (Python runtime) error such as a
failed tuple unpacking. -/
inductive Err
  | atoTypeError (msg : String)
  | atoNameConflictError (msg : String)
  | atoCompileError (msg : String)
  | notImplementedError (msg : String)
  | nameNotFound (k : Key)
  | pyError (msg : String)
deriving DecidableEq, Repr

/-- Constructor tag of an error, used to compare error categories. -/
inductive ErrCtor
  | atoType
  | atoNameConflict
  | atoCompile
  | notImplemented
  | notFound
  | py
deriving DecidableEq, Repr

/-- Category (constructor) of an error. -/
def Err.ctor : Err → ErrCtor
  | Err.atoTypeError _ => ErrCtor.atoType
  | Err.atoNameConflictError _ => ErrCtor.atoNameConflict
  | Err.atoCompileError _ => ErrCtor.atoCompile
  | Err.notImplementedError _ => ErrCtor.notImplemented
  | Err.nameNotFound _ => ErrCtor.notFound
  | Err.pyError _ => ErrCtor.py

/-- The walker state: the scope store, the object store, the user-class
store, and `self.scope` (the current scope's index). -/
structure St where
  scopes : List ScopeData
  objs : List ObjData
  classes : List UserClass
  cur : Nat
deriving DecidableEq, Repr

/-- Model of Python `int(text)` as used on name and integer tokens: an
optional sign followed by one or more decimal digits (the exotic accepted
forms - surrounding whitespace, underscores - do not occur in tokens). -/
def pyParseInt (s : String) : Option Int :=
  let rec digits : List Char → Option Nat
    | [] => none
    | [c] => if c.isDigit then some (c.toNat - 48) else none
    | c :: rest =>
      if c.isDigit then
        match digits rest with
        | some n => some ((c.toNat - 48) * 10 ^ rest.length + n)
        | none => none
      else none
  match s.data with
  | '-' :: rest => (digits rest).map (fun n => -(n : Int))
  | '+' :: rest => (digits rest).map (fun n => (n : Int))
  | rest => (digits rest).map (fun n => (n : Int))

/-- Model of Python `str.strip("\x22'")`: drop quote characters from both
ends (used by `Dizzy.visitString`). -/
def pyStripQuotes (s : String) : String :=
  let isQ : Char → Bool := fun c => c = '"' || c = '\''
  String.mk (((s.data.dropWhile isQ).reverse.dropWhile isQ).reverse)

/-- Modelled from the spec: the built-in super chain (`Component` subclasses
`Module`; `Pin` and `Signal` are `Interface` subtypes; the rest are roots). -/
def Builtin.superB : Builtin → Option Builtin
  | Builtin.COMPONENT => some Builtin.MODULE
  | Builtin.PIN => some Builtin.INTERFACE
  | Builtin.SIGNAL => some Builtin.INTERFACE
  | _ => none

/-- The declared super class of a class, if any. -/
def superOf (st : St) : ClassRef → Option ClassRef
  | ClassRef.builtin b => (Builtin.superB b).map ClassRef.builtin
  | ClassRef.user i => (st.classes[i]?).map (fun c => c.csuper)

/-- Fuelled walk up the super chain (the store is acyclic in every state the
walker builds: a user class is allocated after its super, so
`classes.length + 2` steps always suffice). -/
def subclassFuel (st : St) : Nat → ClassRef → ClassRef → Bool
  | 0, _, _ => false
  | fuel + 1, c, a =>
    if c = a then true
    else
      match superOf st c with
      | some s => subclassFuel st fuel s a
      | none => false

/-- Modelled from the spec: `types.Class.is_subclass_of` - true iff the
ancestor appears in the candidate's super chain (reflexive). -/
def is_subclass_of (st : St) (c a : ClassRef) : Bool :=
  subclassFuel st (st.classes.length + 2) c a

/-- Modelled from the spec: `make_instance` - allocate a fresh `Object` of
the given class; returns its index and the grown store. -/
def makeInstance (st : St) (c : ClassRef) : Nat × St :=
  (st.objs.length, { st with objs := st.objs ++ [{ type_ := c }] })

/-- A freshly materialized scope over an entity (`Scope(entity)` in the
source): no parent, reads and writes the entity's own storage. -/
def pushScope (st : St) (b : Base) : St :=
  { st with scopes := st.scopes ++ [{ root := some b }] }

/-- Association-list lookup, first match wins (dict semantics). -/
def assocLookup : List (Key × Value) → Key → Option Value
  | [], _ => none
  | (k0, v0) :: rest, k => if k0 = k then some v0 else assocLookup rest k

/-- Association-list write with dict semantics: update in place if the key
exists, else append (insertion order preserved). -/
def assocSet : List (Key × Value) → Key → Value → List (Key × Value)
  | [], k, v => [(k, v)]
  | (k0, v0) :: rest, k, v =>
    if k0 = k then (k0, v) :: rest else (k0, v0) :: assocSet rest k v

/-- The name table a scope record itself owns: its own table, or the
members of its root entity (built-ins and primitives own no members). -/
def ownTable (st : St) (sd : ScopeData) : List (Key × Value) :=
  match sd.root with
  | none => sd.table
  | some (Base.obj o) =>
    match st.objs[o]? with
    | some od => od.members
    | none => []
  | some (Base.cls (ClassRef.user i)) =>
    match st.classes[i]? with
    | some c => c.members
    | none => []
  | some (Base.cls (ClassRef.builtin _)) => []
  | some (Base.prim _) => []

/-- Fuelled chained lookup through parent scopes. -/
def lookupFuel (st : St) : Nat → Nat → Key → Option Value
  | 0, _, _ => none
  | fuel + 1, sid, k =>
    match st.scopes[sid]? with
    | none => none
    | some sd =>
      match assocLookup (ownTable st sd) k with
      | some v => some v
      | none =>
        match sd.parent with
        | none => none
        | some p => lookupFuel st fuel p k

/-- Modelled from the spec: `Scope.lookup` / `__getitem__` - walk this scope
then each ancestor, returning the first match (`none` is the NameNotFound
condition).  Parent chains the walker builds are shorter than the store, so
`scopes.length + 1` steps suffice. -/
def Scope.lookup (st : St) (sid : Nat) (k : Key) : Option Value :=
  lookupFuel st (st.scopes.length + 1) sid k

/-- Modelled from the spec: `contains` / the `in` operator mirrors lookup. -/
def Scope.contains (st : St) (sid : Nat) (k : Key) : Bool :=
  (Scope.lookup st sid k).isSome

/-- Modelled from the spec: `Scope.define` / `__setitem__` - fails with
NameConflict if the name is already defined in this scope itself (ancestors
do not conflict), else records the binding in the scope's own storage
(writing through to the root entity when there is one; built-ins are never
mutated). -/
def defineS (st : St) (sid : Nat) (k : Key) (v : Value) : Except Err St :=
  match st.scopes[sid]? with
  | none => Except.error (Err.pyError "invalid scope")
  | some sd =>
    if (assocLookup (ownTable st sd) k).isSome then
      Except.error (Err.atoNameConflictError
        ("Cannot redefine '" ++ k.text ++ "' in the same scope"))
    else
      match sd.root with
      | none =>
        Except.ok { st with
          scopes := st.scopes.set sid { sd with table := assocSet sd.table k v } }
      | some (Base.obj o) =>
        match st.objs[o]? with
        | some od =>
          Except.ok { st with
            objs := st.objs.set o { od with members := assocSet od.members k v } }
        | none => Except.error (Err.pyError "invalid object reference")
      | some (Base.cls (ClassRef.user i)) =>
        match st.classes[i]? with
        | some c =>
          Except.ok { st with
            classes := st.classes.set i { c with members := assocSet c.members k v } }
        | none => Except.error (Err.pyError "invalid class reference")
      | some (Base.cls (ClassRef.builtin _)) =>
        Except.error (Err.pyError "cannot define into a builtin")
      | some (Base.prim _) =>
        Except.error (Err.pyError "cannot define into a primitive")

/-- Modelled from the spec: `Scope.append_anon` - add a value to the
anonymous list of the scope's own storage, retained in order, never
name-addressable. -/
def appendAnonS (st : St) (sid : Nat) (v : Value) : Except Err St :=
  match st.scopes[sid]? with
  | none => Except.error (Err.pyError "invalid scope")
  | some sd =>
    match sd.root with
    | none =>
      Except.ok { st with
        scopes := st.scopes.set sid { sd with anon := sd.anon ++ [v] } }
    | some (Base.obj o) =>
      match st.objs[o]? with
      | some od =>
        Except.ok { st with objs := st.objs.set o { od with anon := od.anon ++ [v] } }
      | none => Except.error (Err.pyError "invalid object reference")
    | some (Base.cls (ClassRef.user i)) =>
      match st.classes[i]? with
      | some c =>
        Except.ok { st with classes := st.classes.set i { c with anon := c.anon ++ [v] } }
      | none => Except.error (Err.pyError "invalid class reference")
    | some (Base.cls (ClassRef.builtin _)) =>
      Except.error (Err.pyError "cannot extend a builtin")
    | some (Base.prim _) =>
      Except.error (Err.pyError "cannot extend a primitive")

/-- True iff the object is a `types.InterfaceObject` (modelled from the
spec: an instance whose class chain reaches the `Interface` built-in; `Pin`
and `Signal` instances qualify). -/
def isInterfaceObject (st : St) (o : Nat) : Bool :=
  match st.objs[o]? with
  | some od => is_subclass_of st od.type_ (ClassRef.builtin Builtin.INTERFACE)
  | none => false

/-- True iff the object is a `types.LinkObject` (instance of a
`Link`-derived class). -/
def isLinkObject (st : St) (o : Nat) : Bool :=
  match st.objs[o]? with
  | some od => is_subclass_of st od.type_ (ClassRef.builtin Builtin.LINK)
  | none => false

/-- Set the `start` and `end` fields of a link object. -/
def setLinkEnds (st : St) (lid s e : Nat) : St :=
  match st.objs[lid]? with
  | some od => { st with objs := st.objs.set lid { od with lstart := some s, lend := some e } }
  | none => st

/-- The Python-side `Attribute` unwrap step of `Dizzy.visitConnectable`
(`connectable = connectable.value`). -/
def unwrapAttr : Value → Value
  | Value.attr _ b => Value.base b
  | v => v

/-- The `type(x)` tag of a primitive, as stored by `visitAssign_stmt`. -/
def primTag : Prim → TypeTag
  | Prim.int _ => TypeTag.intTy
  | Prim.float _ => TypeTag.floatTy
  | Prim.str _ => TypeTag.strTy
  | Prim.bool _ => TypeTag.boolTy

/-! Syntax-tree shapes consumed by the walker.  Each carries exactly the
data the corresponding visitor reads from its ANTLR context. -/

/-- A `name_or_attr` context: a single name token or a dotted attribute
path of name tokens. -/
inductive NameOrAttr
  | name (text : String)
  | attr (texts : List String)
deriving DecidableEq, Repr

/-- The name position of a pin definition: `ctx.totally_an_integer() or
ctx.name()`. -/
inductive PinTok
  | tint (text : String)
  | name (text : String)
deriving DecidableEq, Repr

/-- A `connectable` context: a name/attribute reference, a numeric pin
reference, or an inline pin/signal definition. -/
inductive Connectable
  | ref (r : NameOrAttr)
  | numPin (text : String)
  | inlinePin (tok : PinTok)
  | inlineSignal (text : String)
deriving DecidableEq, Repr

/-- An `assignable` context. -/
inductive Assignable
  | ref (r : NameOrAttr)
  | newStmt (r : NameOrAttr)
  | number (text : String)
  | strLit (text : String)
  | boolean (text : String)
deriving DecidableEq, Repr

/-- The statement shapes the walker handles. -/
inductive Stmt
  | blockdef (nameTok : String) (blocktypeTok : String)
      (fromClause : Option NameOrAttr) (body : List Stmt)
  | pindef (tok : PinTok)
  | signaldef (nameTok : String)
  | importStmt (fromFileTok : String) (what : NameOrAttr)
  | connect (a b : Connectable)
  | withStmt
  | assign (target : NameOrAttr) (value : Assignable)
  | retype (objRef targetRef : NameOrAttr)
deriving Repr

/-- True iff the statement is a retype statement. -/
def Stmt.isRetype : Stmt → Bool
  | Stmt.retype _ _ => true
  | _ => false

/-! The datamodel1-level data the builder itself defines at module level:
the attrs `Object` (with `supers`/`links`/`replace`/`imports`/`locals_`)
and the module-level `MODULE`/`COMPONENT`/... singletons returned by
`visitBlocktype` and placed in `supers` by `visitFile_input`. -/

/-- One of the module-level builtin `Object`s of `datamodel1.py`
(`MODULE`, `COMPONENT`, `PIN`, `SIGNAL`, `INTERFACE`). -/
inductive DM1Builtin
  | MODULE
  | COMPONENT
  | PIN
  | SIGNAL
  | INTERFACE
deriving DecidableEq, Repr

/-- An entry of a `datamodel1.Object`'s `supers` list: a builtin singleton
or a `Ref` (tuple of keys). -/
inductive DM1Super
  | builtinObj (b : DM1Builtin)
  | ref (r : List Key)
deriving DecidableEq, Repr

/-- The attrs class `datamodel1.Object` (`supers`, `links`, `replace`,
`imports`, `locals_`).  Links/replace/imports entries are pairs of `Ref`s
as in the source; the builder never populates any of these apart from
`supers`, so the `locals_` entry type is immaterial. -/
structure DM1Object where
  supers : List DM1Super := []
  links : List (List Key × List Key) := []
  replace : List (List Key × List Key) := []
  imports : List (List Key × String) := []
  locals_ : List (Key × DM1Super) := []
deriving DecidableEq, Repr

/-- Modelled from the spec: the `name` of a class - the fixed name of a
built-in singleton, or the declared name of a user class. -/
def classNameOf (st : St) : ClassRef → String
  | ClassRef.builtin Builtin.MODULE => "Module"
  | ClassRef.builtin Builtin.COMPONENT => "Component"
  | ClassRef.builtin Builtin.PIN => "Pin"
  | ClassRef.builtin Builtin.SIGNAL => "Signal"
  | ClassRef.builtin Builtin.INTERFACE => "Interface"
  | ClassRef.builtin Builtin.LINK => "Link"
  | ClassRef.user i =>
    match st.classes[i]? with
    | some uc => uc.cname.text
    | none => "?"

namespace Dizzy

/-- Embedding of `Dizzy.visitTotally_an_integer`: `int(ctx.getText())`,
raising `errors.AtoTypeError` on `ValueError`. -/
def visitTotally_an_integer (text : String) (st : St) : Except Err (Int × St) :=
  match pyParseInt text with
  | some n => Except.ok (n, st)
  | none => Except.error (Err.atoTypeError ("Expected an integer, but got " ++ text))

/-- Embedding of `Dizzy.visitName`: convert the token to an `int` if
possible (for pins), else keep it as a string. -/
def visitName (text : String) : Key :=
  match pyParseInt text with
  | some n => Key.int n
  | none => Key.str text

/-- Embedding of `Dizzy.visitAttr`: visit every name of the path. -/
def visitAttr (texts : List String) : List Key :=
  texts.map visitName

/-- Embedding of `Dizzy.visitString`: strip surrounding quotes. -/
def visitString (text : String) : String :=
  pyStripQuotes text

/-- Embedding of `Dizzy.visitBoolean_`: `text.lower() == "true"`. -/
def visitBoolean_ (text : String) : Bool :=
  text.map Char.toLower = "true"

/-- The `for attr in path[:-1]` loop of `Dizzy.visitName_or_attr`: with the
walking scope `sid`, look each non-final segment up; descend directly into
a `Scope` value; materialize a scope over a `Class` or `Object` value;
for an `Attribute` whose `type_` is a `Class` (the `isinstance(type_,
(types.Class, types.Object))` test - no state of the walker ever stores an
`Object` in `type_`), materialize a scope over the attribute's `value`;
anything else raises `AtoTypeError`.  The error message omits the Python
`repr` of the scope. -/
def navLoop (st : St) (sid : Nat) : List Key → Except Err (Nat × St)
  | [] => Except.ok (sid, st)
  | k :: rest =>
    match Scope.lookup st sid k with
    | none => Except.error (Err.nameNotFound k)
    | some v =>
      match v with
      | Value.scope s' => navLoop st s' rest
      | Value.base (Base.obj o) => navLoop (pushScope st (Base.obj o)) st.scopes.length rest
      | Value.base (Base.cls c) => navLoop (pushScope st (Base.cls c)) st.scopes.length rest
      | Value.attr t b =>
        match t with
        | TypeTag.cls _ => navLoop (pushScope st b) st.scopes.length rest
        | _ => Except.error (Err.atoTypeError (k.text ++ " isn't an object or class"))
      | Value.base (Base.prim _) =>
        Except.error (Err.atoTypeError (k.text ++ " isn't an object or class"))

/-- Embedding of `Dizzy.visitName_or_attr`: a bare name pairs the current
scope with the name; a dotted path walks every non-final segment and
returns the final segment unresolved with the scope that should own it.
An empty path would hit Python's `path[-1]` IndexError. -/
def visitName_or_attr (r : NameOrAttr) (st : St) : Except Err ((Nat × Key) × St) :=
  match r with
  | NameOrAttr.name t => Except.ok ((st.cur, visitName t), st)
  | NameOrAttr.attr texts =>
    let path := visitAttr texts
    match path.getLast? with
    | none => Except.error (Err.pyError "list index out of range")
    | some last =>
      match navLoop st st.cur path.dropLast with
      | Except.error e => Except.error e
      | Except.ok (sid, st') => Except.ok ((sid, last), st')

/-- Embedding of `Dizzy.visitBlocktype`: `module` and `component` map to
the module-level `MODULE`/`COMPONENT` objects, anything else raises
`AtoCompileError`. -/
def visitBlocktype (text : String) (st : St) : Except Err (DM1Builtin × St) :=
  match text with
  | "module" => Except.ok (DM1Builtin.MODULE, st)
  | "component" => Except.ok (DM1Builtin.COMPONENT, st)
  | _ => Except.error (Err.atoCompileError ("Unknown block type '" ++ text ++ "'"))

/-- Embedding of `Dizzy.visitBlockdef`.  After the name-conflict check the
source executes `default_super, allowed_supers = self.visitBlocktype(...)`,
but `visitBlocktype` returns a single (non-iterable) `Object`, so the
tuple unpacking raises a host-language `TypeError` on every block
definition; the remaining lines of the method (the `from` clause handling,
`Class.make_subclass`, the child scope and the binding of the new class)
are unreachable and are therefore not modelled. -/
def visitBlockdef (nameTok blocktypeTok : String) (fromClause : Option NameOrAttr)
    (body : List Stmt) (st : St) : Except Err (Unit × St) :=
  let new_class_name := visitName nameTok
  if Scope.contains st st.cur new_class_name then
    Except.error (Err.atoNameConflictError
      ("Cannot redefine '" ++ new_class_name.text ++ "' in the same scope"))
  else
    match visitBlocktype blocktypeTok st with
    | Except.error e => Except.error e
    | Except.ok (_bt, _st1) =>
      Except.error (Err.pyError "cannot unpack non-iterable Object object")

/-- The name position of `Dizzy.visitPindef_stmt`:
`self.visit(ctx.totally_an_integer() or ctx.name())`. -/
def pinName (tok : PinTok) (st : St) : Except Err (Key × St) :=
  match tok with
  | PinTok.tint t =>
    match visitTotally_an_integer t st with
    | Except.error e => Except.error e
    | Except.ok (n, st') => Except.ok (Key.int n, st')
  | PinTok.name t => Except.ok (visitName t, st)

/-- Embedding of `Dizzy.visitPindef_stmt`: falsy names are rejected, a name
already visible in the scope raises `AtoNameConflictError`, otherwise a
fresh `PIN` instance is bound under the name and returned. -/
def visitPindef_stmt (tok : PinTok) (st0 : St) : Except Err (Value × St) :=
  match pinName tok st0 with
  | Except.error e => Except.error e
  | Except.ok (name, st) =>
    if name.falsy then
      Except.error (Err.atoCompileError "Pins must have a name")
    else if Scope.contains st st.cur name then
      Except.error (Err.atoNameConflictError
        ("Cannot redefine '" ++ name.text ++ "' in the same scope"))
    else
      let (oid, st1) := makeInstance st (ClassRef.builtin Builtin.PIN)
      match defineS st1 st1.cur name (Value.base (Base.obj oid)) with
      | Except.error e => Except.error e
      | Except.ok st2 => Except.ok (Value.base (Base.obj oid), st2)

/-- Embedding of `Dizzy.visitSignaldef_stmt`: like a pin but instantiating
the `INTERFACE` built-in. -/
def visitSignaldef_stmt (nameTok : String) (st : St) : Except Err (Value × St) :=
  let name := visitName nameTok
  if name.falsy then
    Except.error (Err.atoCompileError "Signals must have a name")
  else if Scope.contains st st.cur name then
    Except.error (Err.atoNameConflictError
      ("Cannot redefine '" ++ name.text ++ "' in the same scope"))
  else
    let (oid, st1) := makeInstance st (ClassRef.builtin Builtin.INTERFACE)
    match defineS st1 st1.cur name (Value.base (Base.obj oid)) with
    | Except.error e => Except.error e
    | Except.ok st2 => Except.ok (Value.base (Base.obj oid), st2)

/-- Embedding of `Dizzy.visitImport_stmt`.  Note the source resolves the
imported name with `visitName_or_attr` against the walker's own current
scope and never consults the named external file: `from_file` is only
checked for emptiness. -/
def visitImport_stmt (fromFileTok : String) (what : NameOrAttr) (st0 : St) :
    Except Err (Unit × St) :=
  let from_file := visitString fromFileTok
  match visitName_or_attr what st0 with
  | Except.error e => Except.error e
  | Except.ok ((sid, to_import), st) =>
    if from_file = "" then
      Except.error (Err.atoCompileError "Expected a 'from <file-path>' after 'import'")
    else if to_import.falsy then
      Except.error (Err.atoCompileError
        "Expected a name or attribute to import after 'import'")
    else if to_import = Key.str "*" then
      Except.error (Err.notImplementedError "import *")
    else if Scope.contains st st.cur to_import then
      Except.error (Err.atoNameConflictError
        ("Cannot redefine '" ++ to_import.text ++ "' in the same scope"))
    else
      match Scope.lookup st sid to_import with
      | none => Except.error (Err.nameNotFound to_import)
      | some v =>
        match defineS st st.cur to_import v with
        | Except.error e => Except.error e
        | Except.ok st' => Except.ok ((), st')

/-- The `connectable` resolution chain of `Dizzy.visitConnectable` before
the `Attribute` unwrap: a name/attribute reference is looked up in its
scope; a numeric pin reference is looked up in the current scope (modelled
from the spec: the grammar for `numerical_pin_ref` is not in the sources;
per the spec it yields the integer pin index); an inline pin or signal
definition is visited, yielding the new instance. -/
def connectableValue (c : Connectable) (st0 : St) : Except Err (Value × St) :=
  match c with
  | Connectable.ref r =>
    match visitName_or_attr r st0 with
    | Except.error e => Except.error e
    | Except.ok ((sid, name), st) =>
      match Scope.lookup st sid name with
      | none => Except.error (Err.nameNotFound name)
      | some v => Except.ok (v, st)
  | Connectable.numPin t =>
    match visitTotally_an_integer t st0 with
    | Except.error e => Except.error e
    | Except.ok (n, st) =>
      match Scope.lookup st st.cur (Key.int n) with
      | none => Except.error (Err.nameNotFound (Key.int n))
      | some v => Except.ok (v, st)
  | Connectable.inlinePin tok => visitPindef_stmt tok st0
  | Connectable.inlineSignal t => visitSignaldef_stmt t st0

/-- Embedding of `Dizzy.visitConnectable`: resolve the operand, unwrap an
`Attribute` to its held value, and require a `types.InterfaceObject`
(otherwise `AtoTypeError`; the message omits `ctx.getText()`). -/
def visitConnectable (c : Connectable) (st0 : St) : Except Err (Nat × St) :=
  match connectableValue c st0 with
  | Except.error e => Except.error e
  | Except.ok (v, st) =>
    match unwrapAttr v with
    | Value.base (Base.obj o) =>
      if isInterfaceObject st o then Except.ok (o, st)
      else Except.error (Err.atoTypeError "Cannot connect to it because it is not an interface")
    | _ => Except.error (Err.atoTypeError "Cannot connect to it because it is not an interface")

/-- Embedding of `Dizzy.visitConnect_stmt`: resolve both connectables,
instantiate the `LINK` built-in (the defensive `LinkObject` isinstance
check never fires), set its `start`/`end` fields, and append it anonymously
to the current scope. -/
def visitConnect_stmt (a b : Connectable) (st0 : St) : Except Err (Nat × St) :=
  match visitConnectable a st0 with
  | Except.error e => Except.error e
  | Except.ok (s, st1) =>
    match visitConnectable b st1 with
    | Except.error e => Except.error e
    | Except.ok (e2, st2) =>
      let (lid, st3) := makeInstance st2 (ClassRef.builtin Builtin.LINK)
      if isLinkObject st3 lid then
        let st4 := setLinkEnds st3 lid s e2
        match appendAnonS st4 st4.cur (Value.base (Base.obj lid)) with
        | Except.error e => Except.error e
        | Except.ok st5 => Except.ok (lid, st5)
      else Except.error (Err.atoTypeError "Unknown error")

/-- Embedding of `Dizzy.visitWith_stmt`: `raise NotImplementedError`. -/
def visitWith_stmt (st : St) : Except Err (Unit × St) :=
  match st with
  | _ => Except.error (Err.notImplementedError "with_stmt")

/-- Embedding of `Dizzy.visitNew_stmt`: resolve the name, require a
`types.Class` (otherwise `AtoTypeError`), instantiate it. -/
def visitNew_stmt (r : NameOrAttr) (st0 : St) : Except Err (Value × St) :=
  match visitName_or_attr r st0 with
  | Except.error e => Except.error e
  | Except.ok ((sid, name_to_init), st) =>
    match Scope.lookup st sid name_to_init with
    | none => Except.error (Err.nameNotFound name_to_init)
    | some v =>
      match v with
      | Value.base (Base.cls c) =>
        let (oid, st1) := makeInstance st c
        Except.ok (Value.base (Base.obj oid), st1)
      | _ => Except.error (Err.atoTypeError
          ("Can only initialise classes, which '" ++ name_to_init.text ++ "' is not"))

/-- Embedding of `Dizzy.visitAssignable`: a reference is looked up, a new
expression is evaluated, a NUMBER becomes an `int` when integral (float
parsing is kept abstract as the literal text), a string is stripped, a
boolean is compared to `"true"`. -/
def visitAssignable (a : Assignable) (st0 : St) : Except Err (Value × St) :=
  match a with
  | Assignable.ref r =>
    match visitName_or_attr r st0 with
    | Except.error e => Except.error e
    | Except.ok ((sid, name), st) =>
      match Scope.lookup st sid name with
      | none => Except.error (Err.nameNotFound name)
      | some v => Except.ok (v, st)
  | Assignable.newStmt r => visitNew_stmt r st0
  | Assignable.number t =>
    match pyParseInt t with
    | some n => Except.ok (Value.base (Base.prim (Prim.int n)), st0)
    | none => Except.ok (Value.base (Base.prim (Prim.float t)), st0)
  | Assignable.strLit t => Except.ok (Value.base (Base.prim (Prim.str (visitString t))), st0)
  | Assignable.boolean t => Except.ok (Value.base (Base.prim (Prim.bool (visitBoolean_ t))), st0)

/-- Embedding of `Dizzy.visitAssign_stmt`: resolve the target, evaluate the
assignable, wrap it into an `Attribute` tagged with its runtime type (an
`Object`'s class, the type `types.Class` for a class, `type(x)` for a
primitive; an existing `Attribute` is re-wrapped with its own tag and held
value), and bind the `Attribute` under the target name.  A `Scope` value
matches no case of the source's `match`, leaving `attr` unbound - a
host-language error. -/
def visitAssign_stmt (target : NameOrAttr) (a : Assignable) (st0 : St) :
    Except Err (Unit × St) :=
  match visitName_or_attr target st0 with
  | Except.error e => Except.error e
  | Except.ok ((sid, name), st) =>
    match visitAssignable a st with
    | Except.error e => Except.error e
    | Except.ok (assignable, st1) =>
      match (match assignable with
        | Value.base (Base.obj o) =>
          match st1.objs[o]? with
          | some od => Except.ok (Value.attr (TypeTag.cls od.type_) (Base.obj o))
          | none => Except.error (Err.pyError "invalid object reference")
        | Value.base (Base.cls c) => Except.ok (Value.attr TypeTag.classType (Base.cls c))
        | Value.attr t b => Except.ok (Value.attr t b)
        | Value.base (Base.prim p) => Except.ok (Value.attr (primTag p) (Base.prim p))
        | Value.scope _ =>
          Except.error (Err.pyError "local variable 'attr' referenced before assignment")) with
      | Except.error e => Except.error e
      | Except.ok attrVal =>
        match defineS st1 sid name attrVal with
        | Except.error e => Except.error e
        | Except.ok st2 => Except.ok ((), st2)

/-- Embedding of `Dizzy.visitRetype_stmt`: resolve both operands; the
object operand must be a `types.Object` (note: an `Attribute` holding one
does not qualify), the target a `types.Class`, and the target must be a
subclass of the object's current `type_`; on success the object's `type_`
is mutated in place. -/
def visitRetype_stmt (objRef targetRef : NameOrAttr) (st0 : St) :
    Except Err (Unit × St) :=
  match visitName_or_attr objRef st0 with
  | Except.error e => Except.error e
  | Except.ok ((obj_scope, obj_name), st1) =>
    match visitName_or_attr targetRef st1 with
    | Except.error e => Except.error e
    | Except.ok ((target_scope, target_name), st2) =>
      match Scope.lookup st2 obj_scope obj_name with
      | none => Except.error (Err.nameNotFound obj_name)
      | some obj =>
        match obj with
        | Value.base (Base.obj o) =>
          match Scope.lookup st2 target_scope target_name with
          | none => Except.error (Err.nameNotFound target_name)
          | some target =>
            match target with
            | Value.base (Base.cls c) =>
              match st2.objs[o]? with
              | none => Except.error (Err.pyError "invalid object reference")
              | some od =>
                if is_subclass_of st2 c od.type_ then
                  Except.ok ((), { st2 with objs := st2.objs.set o { od with type_ := c } })
                else
                  Except.error (Err.atoTypeError
                    ("Cannot retype '" ++ obj_name.text ++ "' to '" ++ target_name.text
                      ++ "' because '" ++ target_name.text ++ "' is not a subclass of '"
                      ++ classNameOf st2 od.type_ ++ "'"))
            | _ => Except.error (Err.atoTypeError
                ("Can only retype to classes, which '" ++ target_name.text ++ "' is not"))
        | _ => Except.error (Err.atoTypeError
            ("Can only retype objects, which '" ++ obj_name.text ++ "' is not"))

/-- Dispatch of one statement through the visitor (results discarded, as by
`visitChildren`). -/
def visitStmt (s : Stmt) (st : St) : Except Err (Unit × St) :=
  match s with
  | Stmt.blockdef n bt fr body => visitBlockdef n bt fr body st
  | Stmt.pindef tok =>
    match visitPindef_stmt tok st with
    | Except.error e => Except.error e
    | Except.ok (_, st') => Except.ok ((), st')
  | Stmt.signaldef t =>
    match visitSignaldef_stmt t st with
    | Except.error e => Except.error e
    | Except.ok (_, st') => Except.ok ((), st')
  | Stmt.importStmt f w => visitImport_stmt f w st
  | Stmt.connect a b =>
    match visitConnect_stmt a b st with
    | Except.error e => Except.error e
    | Except.ok (_, st') => Except.ok ((), st')
  | Stmt.withStmt => visitWith_stmt st
  | Stmt.assign t a => visitAssign_stmt t a st
  | Stmt.retype a b => visitRetype_stmt a b st

/-- Sequential walk of a statement list (depth-first, first error aborts). -/
def visitStmts : List Stmt → St → Except Err (Unit × St)
  | [], st => Except.ok ((), st)
  | s :: rest, st =>
    match visitStmt s st with
    | Except.error e => Except.error e
    | Except.ok (_, st') => visitStmts rest st'

/-- Embedding of `Dizzy.visitFile_input`: the source returns
`Object(supers=[MODULE], locals_={})` immediately - the statements of the
file are never visited (the `locals_` expansion is an unfulfilled TODO in
the source). -/
def visitFile_input (stmts : List Stmt) (st : St) : Except Err (DM1Object × St) :=
  match stmts with
  | _ => Except.ok ({ supers := [DM1Super.builtinObj DM1Builtin.MODULE] }, st)

end Dizzy

/-- A fresh walker state: one empty top-level scope, empty stores. -/
def initSt : St :=
  { scopes := [{}], objs := [], classes := [], cur := 0 }

/-- A value is connectable when, after the `Attribute` unwrap, it is an
Interface-typed object. -/
def isInterfaceValue (st : St) (v : Value) : Bool :=
  match v with
  | Value.base (Base.obj o) => isInterfaceObject st o
  | _ => false

/-- Preservation of every pre-existing object's declared type between two
states: the formal reading of "retype is the only in-place type mutation". -/
def typePres (st st' : St) : Prop :=
  ∀ (i : Nat) (od : ObjData), st.objs[i]? = some od →
    ∃ od' : ObjData, st'.objs[i]? = some od' ∧ od'.type_ = od.type_

/-- The statements of the spec's VDiv round-trip scenario body. -/
def vdivBody : List Stmt :=
  [ Stmt.signaldef "top",
   Stmt.signaldef "out",
   Stmt.signaldef "bottom",
   Stmt.assign (NameOrAttr.name "r_top") (Assignable.newStmt (NameOrAttr.name "Resistor")),
   Stmt.assign (NameOrAttr.name "r_bottom") (Assignable.newStmt (NameOrAttr.name "Resistor")),
   Stmt.connect (Connectable.ref (NameOrAttr.attr ["r_top", "2"]))
     (Connectable.ref (NameOrAttr.name "out")),
   Stmt.connect (Connectable.ref (NameOrAttr.attr ["r_bottom", "1"]))
     (Connectable.ref (NameOrAttr.name "out")),
   Stmt.connect (Connectable.ref (NameOrAttr.attr ["r_bottom", "2"]))
     (Connectable.ref (NameOrAttr.name "bottom"))]

/-- The VDiv scenario as a whole source file. -/
def vdivFile : List Stmt :=
  [ Stmt.blockdef "VDiv" "module" none vdivBody]

/-- A state with user classes Resistor (subclassing Component), Resistor2
(subclassing Resistor) and Capacitor (subclassing Component) in scope, and
a directly bound Interface instance `sig`. -/
def stC4 : St :=
  { scopes := [{ table :=
      [(Key.str "Resistor", Value.base (Base.cls (ClassRef.user 0))),
       (Key.str "Resistor2", Value.base (Base.cls (ClassRef.user 1))),
       (Key.str "Capacitor", Value.base (Base.cls (ClassRef.user 2))),
       (Key.str "sig", Value.base (Base.obj 0))] }],
    objs := [{ type_ := ClassRef.builtin Builtin.INTERFACE }],
    classes :=
      [{ cname := Key.str "Resistor", csuper := ClassRef.builtin Builtin.COMPONENT },
       { cname := Key.str "Resistor2", csuper := ClassRef.user 0 },
       { cname := Key.str "Capacitor", csuper := ClassRef.builtin Builtin.COMPONENT }],
    cur := 0 }

/-- A state whose scope binds `x` to an Attribute holding a class (the
shape `visitAssign_stmt` produces for a class-valued assignment). -/
def stC6x : St :=
  { scopes := [{ table :=
      [(Key.str "x", Value.attr TypeTag.classType (Base.cls (ClassRef.builtin Builtin.MODULE)))] }],
    objs := [], classes := [], cur := 0 }

/-- A state whose scope binds `x` to an Attribute holding an object (the
shape `visitAssign_stmt` produces for an object-valued assignment). -/
def stC6w : St :=
  { scopes := [{ table :=
      [(Key.str "x", Value.attr (TypeTag.cls (ClassRef.builtin Builtin.INTERFACE)) (Base.obj 0))] }],
    objs := [{ type_ := ClassRef.builtin Builtin.INTERFACE }],
    classes := [], cur := 0 }

/-- A state whose scope binds `x` to a primitive value. -/
def stC9x : St :=
  { scopes := [{ table := [(Key.str "x", Value.base (Base.prim (Prim.int 1)))] }],
    objs := [], classes := [], cur := 0 }

/-- The scope record binding two Interface instances under `a1`, `b1`. -/
def sdC5w : ScopeData :=
  { table :=
      [(Key.str "a1", Value.base (Base.obj 0)),
       (Key.str "b1", Value.base (Base.obj 1))] }

/-- A state with two Interface instances bound directly under `a1`, `b1`. -/
def stC5w : St :=
  { scopes := [sdC5w],
    objs := [{ type_ := ClassRef.builtin Builtin.INTERFACE },
             { type_ := ClassRef.builtin Builtin.INTERFACE }],
    classes := [], cur := 0 }

/-- The state a successful connect statement produces from `st2` (the state
after resolving both endpoints, whose current scope record is `sd`): one
fresh link object holding both endpoints, appended anonymously to the
current scope. -/
def connectResultState (st2 : St) (sd : ScopeData) (s e : Nat) : St :=
  { st2 with
    objs := st2.objs ++ [{ type_ := ClassRef.builtin Builtin.LINK,
                           lstart := some s, lend := some e }],
    scopes := st2.scopes.set st2.cur
      { sd with anon := sd.anon ++ [Value.base (Base.obj st2.objs.length)] } }

/-- A state that already binds `Resistor` in the top scope. -/
def stC8b : St :=
  { scopes := [{ table :=
      [(Key.str "Resistor", Value.base (Base.cls (ClassRef.builtin Builtin.COMPONENT)))] }],
    objs := [], classes := [], cur := 0 }

/-- A state with an Interface instance bound directly under `sig` and a
user class `Sig2` subclassing the Interface built-in. -/
def stC3w : St :=
  { scopes := [{ table :=
      [(Key.str "sig", Value.base (Base.obj 0)),
       (Key.str "Sig2", Value.base (Base.cls (ClassRef.user 0)))] }],
    objs := [{ type_ := ClassRef.builtin Builtin.INTERFACE }],
    classes := [{ cname := Key.str "Sig2", csuper := ClassRef.builtin Builtin.INTERFACE }],
    cur := 0 }

/-- The state produced by binding a fresh name in plain scope `cid` while
appending one fresh object of class `c` (the shape shared by pin and signal
definitions). -/
def defineFreshState (st : St) (cid : Nat) (sd : ScopeData) (k : Key) (v : Value)
    (c : ClassRef) : St :=
  { st with objs := st.objs ++ [{ type_ := c }],
            scopes := st.scopes.set cid { sd with table := assocSet sd.table k v } }

/-- C1: walking the VDiv source file does not produce the claimed tree:
`visitFile_input` returns a root Object whose `locals_` is empty (and whose
`links` is empty) without visiting any statement, and walking the file's
statements directly dies in `visitBlockdef`'s tuple unpacking before any
member of VDiv is built. -/
theorem c1_vdiv_walk_builds_no_tree :
    Dizzy.visitFile_input vdivFile initSt
      = Except.ok ({ supers := [DM1Super.builtinObj DM1Builtin.MODULE],
                     links := [], replace := [], imports := [], locals_ := [] }, initSt)
    ∧ Dizzy.visitStmts vdivFile initSt
      = Except.error (Err.pyError "cannot unpack non-iterable Object object") :=
  ⟨rfl, rfl⟩

/-- C2: every block definition fails with a host-language TypeError, for
both block types, because `visitBlockdef` unpacks two values out of
`visitBlocktype`'s single (non-iterable) result; no Class is ever created
or bound. -/
theorem c2_blockdef_always_crashes :
    Dizzy.visitBlockdef "X" "module" none [] initSt
      = Except.error (Err.pyError "cannot unpack non-iterable Object object")
    ∧ Dizzy.visitBlockdef "Y" "component" none [] initSt
      = Except.error (Err.pyError "cannot unpack non-iterable Object object") :=
  ⟨rfl, rfl⟩

/-- C4: the spec's retype scenario fails on the code: `dummy = new Resistor`
binds an Attribute, and `visitRetype_stmt` does not unwrap Attributes, so
`dummy -> Resistor2` raises AtoTypeError instead of retyping; the
non-subclass half behaves as claimed (retyping a directly bound Interface
instance to Capacitor fails with the type error). -/
theorem c4_retype_scenario_fails :
    Dizzy.visitStmts
      [Stmt.assign (NameOrAttr.name "dummy") (Assignable.newStmt (NameOrAttr.name "Resistor")),
       Stmt.retype (NameOrAttr.name "dummy") (NameOrAttr.name "Resistor2")] stC4
      = Except.error (Err.atoTypeError "Can only retype objects, which 'dummy' is not")
    ∧ Dizzy.visitRetype_stmt (NameOrAttr.name "sig") (NameOrAttr.name "Capacitor") stC4
      = Except.error (Err.atoTypeError
          "Cannot retype 'sig' to 'Capacitor' because 'Capacitor' is not a subclass of 'Interface'") :=
  ⟨rfl, rfl⟩

/-- C7: a file whose block declares `pin p1` twice is accepted by the file
walk - `visitFile_input` returns the stub root Object without visiting any
statement, so no NameConflict is raised and an Object is returned; the
duplicate-pin detection itself exists at statement level (second conjunct). -/
theorem c7_duplicate_pin_not_reached_from_file :
    Dizzy.visitFile_input
      [ Stmt.blockdef "M" "module" none
        [Stmt.pindef (PinTok.name "p1"), Stmt.pindef (PinTok.name "p1")]] initSt
      = Except.ok ({ supers := [DM1Super.builtinObj DM1Builtin.MODULE],
                     links := [], replace := [], imports := [], locals_ := [] }, initSt)
    ∧ Dizzy.visitStmts [Stmt.pindef (PinTok.name "p1"), Stmt.pindef (PinTok.name "p1")] initSt
      = Except.error (Err.atoNameConflictError "Cannot redefine 'p1' in the same scope") :=
  ⟨rfl, rfl⟩

/-- C8: `import Resistor from "lib.ato"` never consults the external file:
the name is resolved in the walker's own current scope, so the import fails
with NameNotFound when the name is absent locally and with NameConflict
when it is present - it can never bind anything new. -/
theorem c8_import_never_reads_external_scope :
    Dizzy.visitImport_stmt "\"lib.ato\"" (NameOrAttr.name "Resistor") initSt
      = Except.error (Err.nameNotFound (Key.str "Resistor"))
    ∧ Dizzy.visitImport_stmt "\"lib.ato\"" (NameOrAttr.name "Resistor") stC8b
      = Except.error (Err.atoNameConflictError "Cannot redefine 'Resistor' in the same scope") :=
  ⟨rfl, rfl⟩

/-- C6 counterexample: a path segment bound to an Attribute whose held
value is a Class (type tag `types.Class` itself) is not descended into -
`visitName_or_attr` raises AtoTypeError, because the code tests the
Attribute's `type_` (a `types.Class` instance only for object-valued
attributes), not its held value. -/
theorem c6_class_valued_attribute_segment_fails :
    Dizzy.visitName_or_attr (NameOrAttr.attr ["x", "y"]) stC6x
      = Except.error (Err.atoTypeError "x isn't an object or class") :=
  rfl

/-- C9 counterexample: a non-integer token in an integer pin position
raises the very same `AtoTypeError` class used for type mismatches (here
compared with the error of instantiating a non-class), not an error of a
distinct MalformedLiteral category. -/
theorem c9_nonint_token_raises_type_mismatch_error :
    Dizzy.visitTotally_an_integer "a" initSt
      = Except.error (Err.atoTypeError "Expected an integer, but got a")
    ∧ Dizzy.visitNew_stmt (NameOrAttr.name "x") stC9x
      = Except.error (Err.atoTypeError "Can only initialise classes, which 'x' is not")
    ∧ Err.ctor (Err.atoTypeError "Expected an integer, but got a")
      = Err.ctor (Err.atoTypeError "Can only initialise classes, which 'x' is not") :=
  ⟨rfl, rfl, rfl⟩


/-- C9 (amended): a token whose text does not parse as an integer makes the
walk fail with `AtoTypeError` - the same error class as type mismatches,
not a distinct MalformedLiteral category - and a token that does parse
returns the integer value. -/
theorem visitTotally_an_integer_spec (text : String) (st : St) :
    (pyParseInt text = none →
      Dizzy.visitTotally_an_integer text st
        = Except.error (Err.atoTypeError ("Expected an integer, but got " ++ text)))
  ∧ (∀ n : Int, pyParseInt text = some n →
      Dizzy.visitTotally_an_integer text st = Except.ok (n, st))
  ∧ (∀ e : Err, Dizzy.visitTotally_an_integer text st = Except.error e →
      e.ctor = ErrCtor.atoType) := by
  refine ⟨?_, ?_, ?_⟩
  · intro h
    simp [Dizzy.visitTotally_an_integer, h]
  · intro n h
    simp [Dizzy.visitTotally_an_integer, h]
  · intro e h
    cases hp : pyParseInt text <;> simp [Dizzy.visitTotally_an_integer, hp] at h
    rw [← h]
    rfl

theorem visitTotally_an_integer_spec_witness :
    pyParseInt "1.5" = none
    ∧ Dizzy.visitTotally_an_integer "1.5" initSt
        = Except.error (Err.atoTypeError "Expected an integer, but got 1.5")
    ∧ pyParseInt "17" = some 17
    ∧ Dizzy.visitTotally_an_integer "17" initSt = Except.ok (17, initSt) :=
  ⟨rfl, (visitTotally_an_integer_spec "1.5" initSt).1 rfl, rfl,
    (visitTotally_an_integer_spec "17" initSt).2.1 17 rfl⟩

/-- C6 (amended): one resolution step of a dotted path: a segment bound to
a nested Scope is descended into directly; one bound to an Object or Class
gets a scope materialized over it; one bound to an Attribute whose type
descriptor is a Class instance (the case of an Attribute holding an Object)
is descended into via the held value's scope; an Attribute with any other
type descriptor - including one holding a Class - and any primitive fail
with a TypeError naming the segment; on success the final segment is
returned unresolved with the scope that should own it, and the state is
unchanged apart from the materialized scope. -/
theorem visitName_or_attr_segment_rule (st : St) (a b : String) (v : Value)
    (hl : Scope.lookup st st.cur (Dizzy.visitName a) = some v) :
    (∀ s' : Nat, v = Value.scope s' →
      Dizzy.visitName_or_attr (NameOrAttr.attr [a, b]) st
        = Except.ok ((s', Dizzy.visitName b), st))
  ∧ (∀ o : Nat, v = Value.base (Base.obj o) →
      Dizzy.visitName_or_attr (NameOrAttr.attr [a, b]) st
        = Except.ok ((st.scopes.length, Dizzy.visitName b), pushScope st (Base.obj o)))
  ∧ (∀ c : ClassRef, v = Value.base (Base.cls c) →
      Dizzy.visitName_or_attr (NameOrAttr.attr [a, b]) st
        = Except.ok ((st.scopes.length, Dizzy.visitName b), pushScope st (Base.cls c)))
  ∧ (∀ (c : ClassRef) (bb : Base), v = Value.attr (TypeTag.cls c) bb →
      Dizzy.visitName_or_attr (NameOrAttr.attr [a, b]) st
        = Except.ok ((st.scopes.length, Dizzy.visitName b), pushScope st bb))
  ∧ (∀ (t : TypeTag) (bb : Base), v = Value.attr t bb → (∀ c : ClassRef, t ≠ TypeTag.cls c) →
      Dizzy.visitName_or_attr (NameOrAttr.attr [a, b]) st
        = Except.error (Err.atoTypeError ((Dizzy.visitName a).text ++ " isn't an object or class")))
  ∧ (∀ p : Prim, v = Value.base (Base.prim p) →
      Dizzy.visitName_or_attr (NameOrAttr.attr [a, b]) st
        = Except.error (Err.atoTypeError ((Dizzy.visitName a).text ++ " isn't an object or class"))) := by
  refine ⟨?_, ?_, ?_, ?_, ?_, ?_⟩
  · intro s' hv; subst hv
    simp [Dizzy.visitName_or_attr, Dizzy.visitAttr, Dizzy.navLoop, hl]
  · intro o hv; subst hv
    simp [Dizzy.visitName_or_attr, Dizzy.visitAttr, Dizzy.navLoop, hl]
  · intro c hv; subst hv
    simp [Dizzy.visitName_or_attr, Dizzy.visitAttr, Dizzy.navLoop, hl]
  · intro c bb hv; subst hv
    simp [Dizzy.visitName_or_attr, Dizzy.visitAttr, Dizzy.navLoop, hl]
  · intro t bb hv hne; subst hv
    cases t with
    | cls c => exact absurd rfl (hne c)
    | _ => simp [Dizzy.visitName_or_attr, Dizzy.visitAttr, Dizzy.navLoop, hl]
  · intro p hv; subst hv
    simp [Dizzy.visitName_or_attr, Dizzy.visitAttr, Dizzy.navLoop, hl]

theorem visitName_or_attr_segment_rule_witness :
    Scope.lookup stC6w stC6w.cur (Dizzy.visitName "x")
      = some (Value.attr (TypeTag.cls (ClassRef.builtin Builtin.INTERFACE)) (Base.obj 0))
    ∧ Dizzy.visitName_or_attr (NameOrAttr.attr ["x", "y"]) stC6w
      = Except.ok ((stC6w.scopes.length, Dizzy.visitName "y"), pushScope stC6w (Base.obj 0)) :=
  ⟨rfl,
    (visitName_or_attr_segment_rule stC6w "x" "y"
      (Value.attr (TypeTag.cls (ClassRef.builtin Builtin.INTERFACE)) (Base.obj 0))
      rfl).2.2.2.1 (ClassRef.builtin Builtin.INTERFACE) (Base.obj 0) rfl⟩



/-- Updating a key in an association list makes it look that key up. -/
theorem assocLookup_assocSet_self (l : List (Key × Value)) (k : Key) (v : Value) :
    assocLookup (assocSet l k v) k = some v := by
  induction l with
  | nil => simp [assocSet, assocLookup]
  | cons hd tl ih =>
    cases hd with
    | mk k0 v0 =>
      by_cases h : k0 = k
      · simp [assocSet, assocLookup, h]
      · simp [assocSet, assocLookup, h, ih]

/-- Updating one key leaves the lookup of any other key unchanged. -/
theorem assocLookup_assocSet_ne (l : List (Key × Value)) (k : Key) (v : Value)
    (k' : Key) (h : k' ≠ k) :
    assocLookup (assocSet l k v) k' = assocLookup l k' := by
  have h' : ¬ k = k' := fun hh => h hh.symm
  induction l with
  | nil => simp [assocSet, assocLookup, h']
  | cons hd tl ih =>
    cases hd with
    | mk k0 v0 =>
      by_cases h0 : k0 = k
      · subst h0
        simp [assocSet, assocLookup, h']
      · by_cases h1 : k0 = k'
        · simp [assocSet, assocLookup, h0, h1, h]
        · simp [assocSet, assocLookup, h0, h1, ih]

/-- The own table of a scope is unaffected by appending a fresh (memberless)
object to the object store. -/
theorem ownTable_fresh (st st' : St) (c : ClassRef) (sd : ScopeData)
    (ho : st'.objs = st.objs ++ [{ type_ := c }])
    (hc : st'.classes = st.classes) :
    ownTable st' sd = ownTable st sd := by
  cases hr : sd.root with
  | none => simp [ownTable, hr]
  | some b =>
    cases b with
    | obj o =>
      rcases Nat.lt_trichotomy o st.objs.length with h | h | h
      · simp [ownTable, hr, ho, List.getElem?_append, h]
      · subst h
        have h2 : st.objs[st.objs.length]? = none := List.getElem?_eq_none (Nat.le_refl _)
        simp [ownTable, hr, ho, List.getElem?_concat_length, h2]
      · have h2 : st.objs[o]? = none := List.getElem?_eq_none (Nat.le_of_lt h)
        have h3 : (st.objs ++ [({ type_ := c } : ObjData)])[o]? = none := by
          refine List.getElem?_eq_none ?_
          simp
          omega
        simp [ownTable, hr, ho, h2, h3]
    | cls c' =>
      cases c' with
      | user i => simp [ownTable, hr, hc]
      | builtin b' => simp [ownTable, hr]
    | prim p => simp [ownTable, hr]

/-- Lookup that hits the scope's own table. -/
theorem lookup_hit_own (st : St) (sid : Nat) (sd : ScopeData) (k : Key) (v : Value)
    (hsd : st.scopes[sid]? = some sd) (hv : assocLookup (ownTable st sd) k = some v) :
    Scope.lookup st sid k = some v := by
  simp only [Scope.lookup, lookupFuel, hsd, hv]

/-- A whole-chain lookup miss implies a miss in the scope's own table. -/
theorem lookup_own_none (st : St) (sid : Nat) (sd : ScopeData) (k : Key)
    (hsd : st.scopes[sid]? = some sd) (h : Scope.lookup st sid k = none) :
    assocLookup (ownTable st sd) k = none := by
  cases ha : assocLookup (ownTable st sd) k with
  | none => rfl
  | some v =>
    rw [lookup_hit_own st sid sd k v hsd ha] at h
    cases h

/-- A successful plain-scope definition: the binding is recorded in the
scope's own table, everything else untouched. -/
theorem defineS_plain (st : St) (sid : Nat) (sd : ScopeData) (k : Key) (v : Value)
    (hsd : st.scopes[sid]? = some sd) (hroot : sd.root = none)
    (habs : assocLookup sd.table k = none) :
    defineS st sid k v
      = Except.ok { st with
          scopes := st.scopes.set sid ({ sd with table := assocSet sd.table k v }) } := by
  have hown : ownTable st sd = sd.table := by simp [ownTable, hroot]
  simp [defineS, hsd, hown, habs, hroot]

/-- Defining a fresh name in a plain scope while appending one fresh object
leaves the lookup of every other key, from every scope, unchanged. -/
theorem lookupFuel_define_fresh (st : St) (cid : Nat) (sd : ScopeData)
    (k : Key) (v : Value) (c : ClassRef)
    (hsd : st.scopes[cid]? = some sd) (hroot : sd.root = none) :
    ∀ (fuel sid' : Nat) (k' : Key), k' ≠ k →
      lookupFuel (defineFreshState st cid sd k v c) fuel sid' k'
        = lookupFuel st fuel sid' k' := by
  intro fuel
  induction fuel with
  | zero => intro sid' k' hne; rfl
  | succ m ih =>
    intro sid' k' hne
    have hlt : cid < st.scopes.length := (List.getElem?_eq_some.mp hsd).1
    by_cases hcid : sid' = cid
    · subst hcid
      have h1 : (defineFreshState st sid' sd k v c).scopes[sid']?
          = some ({ sd with table := assocSet sd.table k v }) := by
        show (st.scopes.set sid' ({ sd with table := assocSet sd.table k v }))[sid']? = _
        exact List.getElem?_set_eq_of_lt _ hlt
      have h2 : ownTable (defineFreshState st sid' sd k v c)
          ({ sd with table := assocSet sd.table k v }) = assocSet sd.table k v := by
        simp [ownTable, hroot]
      have h3 : ownTable st sd = sd.table := by simp [ownTable, hroot]
      simp only [lookupFuel, h1, hsd, h2, h3, assocLookup_assocSet_ne sd.table k v k' hne]
      cases ha : assocLookup sd.table k' with
      | some w => rfl
      | none =>
        cases hp : sd.parent with
        | none => rfl
        | some p => exact ih p k' hne
    · have h4 : (defineFreshState st cid sd k v c).scopes[sid']? = st.scopes[sid']? := by
        show (st.scopes.set cid ({ sd with table := assocSet sd.table k v }))[sid']? = _
        exact List.getElem?_set_ne (Ne.symm hcid)
      simp only [lookupFuel, h4]
      cases hsd' : st.scopes[sid']? with
      | none => rfl
      | some sd2 =>
        have hot : ownTable (defineFreshState st cid sd k v c) sd2 = ownTable st sd2 :=
          ownTable_fresh st _ c sd2 rfl rfl
        simp only [hot]
        cases ha : assocLookup (ownTable st sd2) k' with
        | some w => rfl
        | none =>
          cases hp : sd2.parent with
          | none => rfl
          | some p => exact ih p k' hne



/-- C10: a name token whose text parses as an integer is converted by
`visitName` to the integer key, in every syntactic position (`visitAttr`
maps `visitName` over every segment), and a signal declared under an
all-digits name is bound - and addressable - only under the integer key,
never under the string form. -/
theorem visitName_integer_keys
    (s : String) (n : Int) (st : St) (sd : ScopeData)
    (hp : pyParseInt s = some n)
    (hn : n ≠ 0)
    (hsd : st.scopes[st.cur]? = some sd)
    (hroot : sd.root = none)
    (habs : Scope.contains st st.cur (Key.int n) = false)
    (hstr : Scope.lookup st st.cur (Key.str s) = none) :
    Dizzy.visitName s = Key.int n
    ∧ Dizzy.visitAttr [s] = [Key.int n]
    ∧ ∃ st' : St,
        Dizzy.visitSignaldef_stmt s st
          = Except.ok (Value.base (Base.obj st.objs.length), st')
        ∧ Scope.lookup st' st.cur (Key.int n)
            = some (Value.base (Base.obj st.objs.length))
        ∧ Scope.lookup st' st.cur (Key.str s) = none := by
  have hname : Dizzy.visitName s = Key.int n := by simp [Dizzy.visitName, hp]
  have hattr : Dizzy.visitAttr [s] = [Key.int n] := by simp [Dizzy.visitAttr, hname]
  have hlt : st.cur < st.scopes.length := (List.getElem?_eq_some.mp hsd).1
  have hlknone : Scope.lookup st st.cur (Key.int n) = none := by
    cases h : Scope.lookup st st.cur (Key.int n) with
    | none => rfl
    | some v =>
      unfold Scope.contains at habs
      rw [h] at habs
      simp at habs
  have hto : ownTable st sd = sd.table := by simp [ownTable, hroot]
  have hown : assocLookup sd.table (Key.int n) = none := by
    have h0 := lookup_own_none st st.cur sd (Key.int n) hsd hlknone
    rw [hto] at h0
    exact h0
  have hfal : (Key.int n).falsy = false := by simp [Key.falsy, hn]
  refine ⟨hname, hattr,
    defineFreshState st st.cur sd (Key.int n) (Value.base (Base.obj st.objs.length))
      (ClassRef.builtin Builtin.INTERFACE), ?_, ?_, ?_⟩
  · simp only [Dizzy.visitSignaldef_stmt, hname, hfal, habs, Bool.false_eq_true,
      if_false, makeInstance]
    have hsd1 : ({ st with objs := st.objs ++ [{ type_ := ClassRef.builtin Builtin.INTERFACE }] } : St).scopes[st.cur]? = some sd := hsd
    rw [defineS_plain _ st.cur sd (Key.int n) (Value.base (Base.obj st.objs.length)) hsd1 hroot hown]
    rfl
  · have h6 : (defineFreshState st st.cur sd (Key.int n) (Value.base (Base.obj st.objs.length)) (ClassRef.builtin Builtin.INTERFACE)).scopes[st.cur]? = some ({ sd with table := assocSet sd.table (Key.int n) (Value.base (Base.obj st.objs.length)) }) := by
      show (st.scopes.set st.cur _)[st.cur]? = _
      exact List.getElem?_set_eq_of_lt _ hlt
    have h5 : ownTable (defineFreshState st st.cur sd (Key.int n) (Value.base (Base.obj st.objs.length)) (ClassRef.builtin Builtin.INTERFACE)) ({ sd with table := assocSet sd.table (Key.int n) (Value.base (Base.obj st.objs.length)) }) = assocSet sd.table (Key.int n) (Value.base (Base.obj st.objs.length)) := by
      simp [ownTable, hroot]
    refine lookup_hit_own _ _ _ _ _ h6 ?_
    rw [h5]
    exact assocLookup_assocSet_self _ _ _
  · have hne2 : Key.str s ≠ Key.int n := by intro h; cases h
    have hlen : (defineFreshState st st.cur sd (Key.int n)
        (Value.base (Base.obj st.objs.length))
        (ClassRef.builtin Builtin.INTERFACE)).scopes.length = st.scopes.length := by
      simp [defineFreshState]
    unfold Scope.lookup
    rw [hlen]
    rw [lookupFuel_define_fresh st st.cur sd (Key.int n)
      (Value.base (Base.obj st.objs.length)) (ClassRef.builtin Builtin.INTERFACE)
      hsd hroot (st.scopes.length + 1) st.cur (Key.str s) hne2]
    exact hstr

/-- Witness for the integer-key behaviour at the concrete name token 12. -/
theorem visitName_integer_keys_witness :
    Dizzy.visitName "12" = Key.int 12
    ∧ Dizzy.visitAttr ["12"] = [Key.int 12]
    ∧ ∃ st' : St,
        Dizzy.visitSignaldef_stmt "12" initSt
          = Except.ok (Value.base (Base.obj initSt.objs.length), st')
        ∧ Scope.lookup st' initSt.cur (Key.int 12)
            = some (Value.base (Base.obj initSt.objs.length))
        ∧ Scope.lookup st' initSt.cur (Key.str "12") = none :=
  visitName_integer_keys "12" 12 initSt {} rfl (by decide) rfl rfl rfl rfl



/-- Subclass-of is reflexive in every state. -/
theorem is_subclass_of_refl (st : St) (c : ClassRef) : is_subclass_of st c c = true := by
  unfold is_subclass_of
  rw [show st.classes.length + 2 = (st.classes.length + 1) + 1 from rfl]
  simp [subclassFuel]

/-- Setting the freshly appended last element of a list replaces it. -/
theorem set_concat_self {α : Type} (l : List α) (a b : α) :
    (l ++ [a]).set l.length b = l ++ [b] := by
  induction l with
  | nil => rfl
  | cons hd tl ih => simp [List.set, ih]

/-- C5: the connect statement: `visitConnectable` only ever returns
Interface-typed objects (first conjunct); a resolved reference that - after
the Attribute unwrap - is not an Interface-typed object makes the statement
fail with AtoTypeError (second conjunct); and when both operands resolve, a
fresh Link object carrying both endpoints is created and appended as an
anonymous member of the current scope, with no name bound (third conjunct:
the scope's table is untouched in the result state). -/
theorem visitConnect_stmt_correct :
    (∀ (c : Connectable) (st st' : St) (r : Nat),
      Dizzy.visitConnectable c st = Except.ok (r, st') → isInterfaceObject st' r = true)
    ∧ (∀ (rf : NameOrAttr) (st st1 : St) (sid : Nat) (k : Key) (v : Value),
      Dizzy.visitName_or_attr rf st = Except.ok ((sid, k), st1) →
      Scope.lookup st1 sid k = some v →
      isInterfaceValue st1 (unwrapAttr v) = false →
      ∃ m, Dizzy.visitConnectable (Connectable.ref rf) st
        = Except.error (Err.atoTypeError m))
    ∧ (∀ (a b : Connectable) (st st1 st2 : St) (s e : Nat) (sd : ScopeData),
      Dizzy.visitConnectable a st = Except.ok (s, st1) →
      Dizzy.visitConnectable b st1 = Except.ok (e, st2) →
      st2.scopes[st2.cur]? = some sd →
      sd.root = none →
      Dizzy.visitConnect_stmt a b st
        = Except.ok (st2.objs.length, connectResultState st2 sd s e)) := by
  refine ⟨?_, ?_, ?_⟩
  · intro c st st' r h
    unfold Dizzy.visitConnectable at h
    cases hcv : Dizzy.connectableValue c st with
    | error e =>
      simp only [hcv] at h
      exact Except.noConfusion h
    | ok p =>
      obtain ⟨v, stv⟩ := p
      simp only [hcv] at h
      cases huv : unwrapAttr v with
      | base bb =>
        cases bb with
        | obj o =>
          simp only [huv] at h
          by_cases hio : isInterfaceObject stv o = true
          · rw [if_pos hio] at h
            simp only [Except.ok.injEq, Prod.mk.injEq] at h
            obtain ⟨h1, h2⟩ := h
            subst h1
            subst h2
            exact hio
          · rw [if_neg hio] at h
            exact Except.noConfusion h
        | cls cc =>
          simp only [huv] at h
          exact Except.noConfusion h
        | prim p =>
          simp only [huv] at h
          exact Except.noConfusion h
      | attr t bb =>
        simp only [huv] at h
        exact Except.noConfusion h
      | scope ss =>
        simp only [huv] at h
        exact Except.noConfusion h
  · intro rf st st1 sid k v h1 h2 h3
    unfold Dizzy.visitConnectable Dizzy.connectableValue
    simp only [h1, h2]
    refine ⟨"Cannot connect to it because it is not an interface", ?_⟩
    cases huv : unwrapAttr v with
    | base bb =>
      cases bb with
      | obj o =>
        simp only [huv]
        rw [huv] at h3
        simp only [isInterfaceValue] at h3
        rw [if_neg (by simp [h3])]
      | cls cc => simp only [huv]
      | prim p => simp only [huv]
    | attr t bb => simp only [huv]
    | scope ss => simp only [huv]
  · intro a b st st1 st2 s e sd h1 h2 hsd hroot
    have happend : (st2.objs ++ [({ type_ := ClassRef.builtin Builtin.LINK } : ObjData)])[st2.objs.length]?
        = some ({ type_ := ClassRef.builtin Builtin.LINK } : ObjData) :=
      List.getElem?_concat_length _ _
    have hlink : isLinkObject ({ st2 with objs := st2.objs ++ [{ type_ := ClassRef.builtin Builtin.LINK }] }) st2.objs.length = true := by
      simp only [isLinkObject]
      rw [happend]
      exact is_subclass_of_refl _ _
    unfold Dizzy.visitConnect_stmt
    simp only [h1, h2, makeInstance, hlink, if_true]
    simp only [setLinkEnds, happend]
    rw [set_concat_self]
    simp only [appendAnonS, hsd, hroot]
    simp only [connectResultState, hroot]

/-- Witness: connecting two directly bound Interface instances succeeds and
appends the fresh link anonymously. -/
theorem visitConnect_stmt_correct_witness :
    Dizzy.visitConnectable (Connectable.ref (NameOrAttr.name "a1")) stC5w = Except.ok (0, stC5w)
    ∧ Dizzy.visitConnectable (Connectable.ref (NameOrAttr.name "b1")) stC5w = Except.ok (1, stC5w)
    ∧ stC5w.scopes[stC5w.cur]? = some sdC5w
    ∧ sdC5w.root = none
    ∧ Dizzy.visitConnect_stmt (Connectable.ref (NameOrAttr.name "a1"))
        (Connectable.ref (NameOrAttr.name "b1")) stC5w
      = Except.ok (stC5w.objs.length, connectResultState stC5w sdC5w 0 1) :=
  ⟨rfl, rfl, rfl, rfl,
    visitConnect_stmt_correct.2.2 (Connectable.ref (NameOrAttr.name "a1"))
      (Connectable.ref (NameOrAttr.name "b1")) stC5w stC5w stC5w 0 1 sdC5w rfl rfl rfl rfl⟩



/-- Type preservation is reflexive. -/
theorem typePres_refl (st : St) : typePres st st :=
  fun _ od h => ⟨od, h, rfl⟩

/-- Type preservation composes. -/
theorem typePres_trans {st1 st2 st3 : St} (h1 : typePres st1 st2) (h2 : typePres st2 st3) :
    typePres st1 st3 := by
  intro i od h
  obtain ⟨od2, h21, h22⟩ := h1 i od h
  obtain ⟨od3, h31, h32⟩ := h2 i od2 h21
  exact ⟨od3, h31, h32.trans h22⟩

/-- A state with the same object store preserves types. -/
theorem typePres_of_objsEq {st st' : St} (h : st'.objs = st.objs) : typePres st st' :=
  fun _ od hi => ⟨od, h ▸ hi, rfl⟩

/-- Appending objects preserves the types of existing ones. -/
theorem typePres_append {st st' : St} (l : List ObjData) (h : st'.objs = st.objs ++ l) :
    typePres st st' := by
  intro i od hi
  have hlt : i < st.objs.length := (List.getElem?_eq_some.mp hi).1
  refine ⟨od, ?_, rfl⟩
  rw [h, List.getElem?_append]
  simp [hlt, hi]

/-- Overwriting one object with an object of the same type preserves types. -/
theorem typePres_set_same_type {st st' : St} (i : Nat) (od od' : ObjData)
    (hre : st.objs[i]? = some od) (ht : od'.type_ = od.type_)
    (h : st'.objs = st.objs.set i od') : typePres st st' := by
  intro j odj hj
  by_cases hij : i = j
  · subst hij
    rw [hre] at hj
    cases hj
    have hlt : i < st.objs.length := (List.getElem?_eq_some.mp hre).1
    refine ⟨od', ?_, ht⟩
    rw [h]
    exact List.getElem?_set_eq_of_lt _ hlt
  · refine ⟨odj, ?_, rfl⟩
    rw [h, List.getElem?_set_ne hij]
    exact hj

/-- A successful `define` never changes any object's type. -/
theorem defineS_typePres (st : St) (sid : Nat) (k : Key) (v : Value) (st' : St)
    (h : defineS st sid k v = Except.ok st') : typePres st st' := by
  unfold defineS at h
  cases hs : st.scopes[sid]? with
  | none => simp only [hs] at h; exact Except.noConfusion h
  | some sd =>
    simp only [hs] at h
    by_cases hc : (assocLookup (ownTable st sd) k).isSome = true
    · rw [if_pos hc] at h; exact Except.noConfusion h
    · rw [if_neg hc] at h
      cases hr : sd.root with
      | none =>
        simp only [hr] at h
        simp only [Except.ok.injEq] at h
        subst h
        exact typePres_of_objsEq rfl
      | some b =>
        cases b with
        | obj o =>
          simp only [hr] at h
          cases ho : st.objs[o]? with
          | none => simp only [ho] at h; exact Except.noConfusion h
          | some od =>
            simp only [ho] at h
            simp only [Except.ok.injEq] at h
            subst h
            exact typePres_set_same_type o od ({ od with members := assocSet od.members k v }) ho rfl rfl
        | cls cc =>
          cases cc with
          | user i =>
            simp only [hr] at h
            cases hcl : st.classes[i]? with
            | none => simp only [hcl] at h; exact Except.noConfusion h
            | some c =>
              simp only [hcl] at h
              simp only [Except.ok.injEq] at h
              subst h
              exact typePres_of_objsEq rfl
          | builtin b' => simp only [hr] at h; exact Except.noConfusion h
        | prim p => simp only [hr] at h; exact Except.noConfusion h

/-- A successful `append_anon` never changes any object's type. -/
theorem appendAnonS_typePres (st : St) (sid : Nat) (v : Value) (st' : St)
    (h : appendAnonS st sid v = Except.ok st') : typePres st st' := by
  unfold appendAnonS at h
  cases hs : st.scopes[sid]? with
  | none => simp only [hs] at h; exact Except.noConfusion h
  | some sd =>
    simp only [hs] at h
    cases hr : sd.root with
    | none =>
      simp only [hr] at h
      simp only [Except.ok.injEq] at h
      subst h
      exact typePres_of_objsEq rfl
    | some b =>
      cases b with
      | obj o =>
        simp only [hr] at h
        cases ho : st.objs[o]? with
        | none => simp only [ho] at h; exact Except.noConfusion h
        | some od =>
          simp only [ho] at h
          simp only [Except.ok.injEq] at h
          subst h
          exact typePres_set_same_type o od ({ od with anon := od.anon ++ [v] }) ho rfl rfl
      | cls cc =>
        cases cc with
        | user i =>
          simp only [hr] at h
          cases hcl : st.classes[i]? with
          | none => simp only [hcl] at h; exact Except.noConfusion h
          | some c =>
            simp only [hcl] at h
            simp only [Except.ok.injEq] at h
            subst h
            exact typePres_of_objsEq rfl
        | builtin b' => simp only [hr] at h; exact Except.noConfusion h
      | prim p => simp only [hr] at h; exact Except.noConfusion h

/-- Setting link endpoints never changes any object's type. -/
theorem setLinkEnds_typePres (st : St) (lid s e : Nat) :
    typePres st (setLinkEnds st lid s e) := by
  unfold setLinkEnds
  cases ho : st.objs[lid]? with
  | none => exact typePres_refl st
  | some od =>
    exact typePres_set_same_type lid od ({ od with lstart := some s, lend := some e }) ho rfl rfl

/-- The navigation loop of dotted-path resolution never touches the object
store. -/
theorem navLoop_objs (ks : List Key) :
    ∀ (st : St) (sid sid' : Nat) (st' : St),
      Dizzy.navLoop st sid ks = Except.ok (sid', st') → st'.objs = st.objs := by
  induction ks with
  | nil =>
    intro st sid sid' st' h
    simp only [Dizzy.navLoop, Except.ok.injEq, Prod.mk.injEq] at h
    rw [← h.2]
  | cons k rest ih =>
    intro st sid sid' st' h
    simp only [Dizzy.navLoop] at h
    cases hl : Scope.lookup st sid k with
    | none => simp only [hl] at h; exact Except.noConfusion h
    | some v =>
      simp only [hl] at h
      cases v with
      | scope s' => exact ih st s' sid' st' h
      | base bb =>
        cases bb with
        | obj o => exact ih (pushScope st (Base.obj o)) st.scopes.length sid' st' h
        | cls c => exact ih (pushScope st (Base.cls c)) st.scopes.length sid' st' h
        | prim p => exact Except.noConfusion h
      | attr t bb =>
        cases t with
        | cls c => exact ih (pushScope st bb) st.scopes.length sid' st' h
        | classType => exact Except.noConfusion h
        | intTy => exact Except.noConfusion h
        | floatTy => exact Except.noConfusion h
        | strTy => exact Except.noConfusion h
        | boolTy => exact Except.noConfusion h

/-- Name-or-attribute resolution never touches the object store. -/
theorem visitName_or_attr_objs (r : NameOrAttr) (st : St) (x : Nat × Key) (st' : St)
    (h : Dizzy.visitName_or_attr r st = Except.ok (x, st')) : st'.objs = st.objs := by
  cases r with
  | name t =>
    simp only [Dizzy.visitName_or_attr, Except.ok.injEq, Prod.mk.injEq] at h
    rw [← h.2]
  | attr texts =>
    simp only [Dizzy.visitName_or_attr] at h
    cases hg : (Dizzy.visitAttr texts).getLast? with
    | none => simp only [hg] at h; exact Except.noConfusion h
    | some last =>
      simp only [hg] at h
      cases hn : Dizzy.navLoop st st.cur (Dizzy.visitAttr texts).dropLast with
      | error e => simp only [hn] at h; exact Except.noConfusion h
      | ok p =>
        obtain ⟨sid, stN⟩ := p
        simp only [hn, Except.ok.injEq, Prod.mk.injEq] at h
        rw [← h.2]
        exact navLoop_objs _ st st.cur sid stN hn



/-- The integer-token visitor leaves the state unchanged. -/
theorem visitTotally_an_integer_state (text : String) (st : St) (n : Int) (st' : St)
    (h : Dizzy.visitTotally_an_integer text st = Except.ok (n, st')) : st' = st := by
  unfold Dizzy.visitTotally_an_integer at h
  cases hp : pyParseInt text with
  | none => simp only [hp] at h; exact Except.noConfusion h
  | some m =>
    simp only [hp, Except.ok.injEq, Prod.mk.injEq] at h
    rw [← h.2]

/-- The pin-name visitor leaves the state unchanged. -/
theorem pinName_state (tok : PinTok) (st : St) (k : Key) (st' : St)
    (h : Dizzy.pinName tok st = Except.ok (k, st')) : st' = st := by
  cases tok with
  | tint t =>
    unfold Dizzy.pinName at h
    cases hti : Dizzy.visitTotally_an_integer t st with
    | error e => simp only [hti] at h; exact Except.noConfusion h
    | ok p =>
      obtain ⟨n, stn⟩ := p
      simp only [hti, Except.ok.injEq, Prod.mk.injEq] at h
      rw [← h.2]
      exact visitTotally_an_integer_state t st n stn hti
  | name t =>
    simp only [Dizzy.pinName, Except.ok.injEq, Prod.mk.injEq] at h
    rw [← h.2]

/-- Pin definitions never change any existing object's type. -/
theorem visitPindef_typePres (tok : PinTok) (st : St) (v : Value) (st' : St)
    (h : Dizzy.visitPindef_stmt tok st = Except.ok (v, st')) : typePres st st' := by
  unfold Dizzy.visitPindef_stmt at h
  cases hpn : Dizzy.pinName tok st with
  | error e => simp only [hpn] at h; exact Except.noConfusion h
  | ok p =>
    obtain ⟨name, stn⟩ := p
    have hst : stn = st := pinName_state tok st name stn hpn
    subst hst
    simp only [hpn] at h
    by_cases hf : name.falsy = true
    · rw [if_pos hf] at h; exact Except.noConfusion h
    · rw [if_neg hf] at h
      by_cases hcon : Scope.contains stn stn.cur name = true
      · rw [if_pos hcon] at h; exact Except.noConfusion h
      · rw [if_neg hcon] at h
        simp only [makeInstance] at h
        cases hd : defineS ({ stn with objs := stn.objs ++ [{ type_ := ClassRef.builtin Builtin.PIN }] }) stn.cur name (Value.base (Base.obj stn.objs.length)) with
        | error e => simp only [hd] at h; exact Except.noConfusion h
        | ok st2 =>
          simp only [hd, Except.ok.injEq, Prod.mk.injEq] at h
          rw [← h.2]
          exact typePres_trans
            (typePres_append [({ type_ := ClassRef.builtin Builtin.PIN } : ObjData)] rfl)
            (defineS_typePres _ stn.cur name (Value.base (Base.obj stn.objs.length)) st2 hd)

/-- Signal definitions never change any existing object's type. -/
theorem visitSignaldef_typePres (t : String) (st : St) (v : Value) (st' : St)
    (h : Dizzy.visitSignaldef_stmt t st = Except.ok (v, st')) : typePres st st' := by
  unfold Dizzy.visitSignaldef_stmt at h
  by_cases hf : (Dizzy.visitName t).falsy = true
  · rw [if_pos hf] at h; exact Except.noConfusion h
  · rw [if_neg hf] at h
    by_cases hcon : Scope.contains st st.cur (Dizzy.visitName t) = true
    · rw [if_pos hcon] at h; exact Except.noConfusion h
    · rw [if_neg hcon] at h
      simp only [makeInstance] at h
      cases hd : defineS ({ st with objs := st.objs ++ [{ type_ := ClassRef.builtin Builtin.INTERFACE }] }) st.cur (Dizzy.visitName t) (Value.base (Base.obj st.objs.length)) with
      | error e => simp only [hd] at h; exact Except.noConfusion h
      | ok st2 =>
        simp only [hd, Except.ok.injEq, Prod.mk.injEq] at h
        rw [← h.2]
        exact typePres_trans
          (typePres_append [({ type_ := ClassRef.builtin Builtin.INTERFACE } : ObjData)] rfl)
          (defineS_typePres _ st.cur (Dizzy.visitName t) (Value.base (Base.obj st.objs.length)) st2 hd)

/-- New-expressions never change any existing object's type. -/
theorem visitNew_typePres (r : NameOrAttr) (st : St) (v : Value) (st' : St)
    (h : Dizzy.visitNew_stmt r st = Except.ok (v, st')) : typePres st st' := by
  unfold Dizzy.visitNew_stmt at h
  cases hna : Dizzy.visitName_or_attr r st with
  | error e => simp only [hna] at h; exact Except.noConfusion h
  | ok p =>
    obtain ⟨⟨sid, name⟩, stn⟩ := p
    have hobjs : stn.objs = st.objs := visitName_or_attr_objs r st (sid, name) stn hna
    simp only [hna] at h
    cases hl : Scope.lookup stn sid name with
    | none => simp only [hl] at h; exact Except.noConfusion h
    | some w =>
      simp only [hl] at h
      cases w with
      | base bb =>
        cases bb with
        | cls c =>
          simp only [makeInstance, Except.ok.injEq, Prod.mk.injEq] at h
          refine typePres_trans (typePres_of_objsEq hobjs) ?_
          rw [← h.2]
          exact typePres_append [({ type_ := c } : ObjData)] rfl
        | obj o => exact Except.noConfusion h
        | prim p' => exact Except.noConfusion h
      | attr t bb => exact Except.noConfusion h
      | scope ss => exact Except.noConfusion h

/-- Connectable resolution never changes any existing object's type. -/
theorem connectableValue_typePres (c : Connectable) (st : St) (v : Value) (st' : St)
    (h : Dizzy.connectableValue c st = Except.ok (v, st')) : typePres st st' := by
  cases c with
  | ref r =>
    unfold Dizzy.connectableValue at h
    cases hna : Dizzy.visitName_or_attr r st with
    | error e => simp only [hna] at h; exact Except.noConfusion h
    | ok p =>
      obtain ⟨⟨sid, name⟩, stn⟩ := p
      simp only [hna] at h
      cases hl : Scope.lookup stn sid name with
      | none => simp only [hl] at h; exact Except.noConfusion h
      | some w =>
        simp only [hl, Except.ok.injEq, Prod.mk.injEq] at h
        rw [← h.2]
        exact typePres_of_objsEq (visitName_or_attr_objs r st (sid, name) stn hna)
  | numPin t =>
    unfold Dizzy.connectableValue at h
    cases hti : Dizzy.visitTotally_an_integer t st with
    | error e => simp only [hti] at h; exact Except.noConfusion h
    | ok p =>
      obtain ⟨n, stn⟩ := p
      have hst : stn = st := visitTotally_an_integer_state t st n stn hti
      simp only [hti] at h
      cases hl : Scope.lookup stn stn.cur (Key.int n) with
      | none => simp only [hl] at h; exact Except.noConfusion h
      | some w =>
        simp only [hl, Except.ok.injEq, Prod.mk.injEq] at h
        rw [← h.2, hst]
        exact typePres_refl st
  | inlinePin tok => exact visitPindef_typePres tok st v st' h
  | inlineSignal t => exact visitSignaldef_typePres t st v st' h

/-- The connectable visitor never changes any existing object's type. -/
theorem visitConnectable_typePres (c : Connectable) (st : St) (r : Nat) (st' : St)
    (h : Dizzy.visitConnectable c st = Except.ok (r, st')) : typePres st st' := by
  unfold Dizzy.visitConnectable at h
  cases hcv : Dizzy.connectableValue c st with
  | error e => simp only [hcv] at h; exact Except.noConfusion h
  | ok p =>
    obtain ⟨v, stv⟩ := p
    simp only [hcv] at h
    have hpres : typePres st stv := connectableValue_typePres c st v stv hcv
    cases huv : unwrapAttr v with
    | base bb =>
      cases bb with
      | obj o =>
        simp only [huv] at h
        by_cases hio : isInterfaceObject stv o = true
        · rw [if_pos hio] at h
          simp only [Except.ok.injEq, Prod.mk.injEq] at h
          rw [← h.2]
          exact hpres
        · rw [if_neg hio] at h; exact Except.noConfusion h
      | cls cc => simp only [huv] at h; exact Except.noConfusion h
      | prim p' => simp only [huv] at h; exact Except.noConfusion h
    | attr t bb => simp only [huv] at h; exact Except.noConfusion h
    | scope ss => simp only [huv] at h; exact Except.noConfusion h



/-- Connect statements never change any existing object's type. -/
theorem visitConnect_typePres (a b : Connectable) (st : St) (lid : Nat) (st' : St)
    (h : Dizzy.visitConnect_stmt a b st = Except.ok (lid, st')) : typePres st st' := by
  unfold Dizzy.visitConnect_stmt at h
  cases hca : Dizzy.visitConnectable a st with
  | error e => simp only [hca] at h; exact Except.noConfusion h
  | ok p =>
    obtain ⟨s, st1⟩ := p
    simp only [hca] at h
    cases hcb : Dizzy.visitConnectable b st1 with
    | error e => simp only [hcb] at h; exact Except.noConfusion h
    | ok q =>
      obtain ⟨e2, st2⟩ := q
      simp only [hcb, makeInstance] at h
      by_cases hl : isLinkObject ({ st2 with objs := st2.objs ++ [{ type_ := ClassRef.builtin Builtin.LINK }] }) st2.objs.length = true
      · rw [if_pos hl] at h
        cases hap : appendAnonS
            (setLinkEnds ({ st2 with objs := st2.objs ++ [{ type_ := ClassRef.builtin Builtin.LINK }] }) st2.objs.length s e2)
            (setLinkEnds ({ st2 with objs := st2.objs ++ [{ type_ := ClassRef.builtin Builtin.LINK }] }) st2.objs.length s e2).cur
            (Value.base (Base.obj st2.objs.length)) with
        | error e => simp only [hap] at h; exact Except.noConfusion h
        | ok st5 =>
          simp only [hap, Except.ok.injEq, Prod.mk.injEq] at h
          rw [← h.2]
          refine typePres_trans (visitConnectable_typePres a st s st1 hca) ?_
          refine typePres_trans (visitConnectable_typePres b st1 e2 st2 hcb) ?_
          refine typePres_trans (@typePres_append st2 ({ st2 with objs := st2.objs ++ [{ type_ := ClassRef.builtin Builtin.LINK }] }) [({ type_ := ClassRef.builtin Builtin.LINK } : ObjData)] rfl) ?_
          refine typePres_trans (setLinkEnds_typePres _ st2.objs.length s e2) ?_
          exact appendAnonS_typePres _ _ (Value.base (Base.obj st2.objs.length)) st5 hap
      · rw [if_neg hl] at h; exact Except.noConfusion h

/-- Import statements never change any existing object's type. -/
theorem visitImport_typePres (f : String) (w : NameOrAttr) (st : St) (u : Unit) (st' : St)
    (h : Dizzy.visitImport_stmt f w st = Except.ok (u, st')) : typePres st st' := by
  unfold Dizzy.visitImport_stmt at h
  cases hna : Dizzy.visitName_or_attr w st with
  | error e => simp only [hna] at h; exact Except.noConfusion h
  | ok p =>
    obtain ⟨⟨sid, toi⟩, stn⟩ := p
    simp only [hna] at h
    have hpres : typePres st stn :=
      typePres_of_objsEq (visitName_or_attr_objs w st (sid, toi) stn hna)
    by_cases hf : Dizzy.visitString f = ""
    · rw [if_pos hf] at h; exact Except.noConfusion h
    · rw [if_neg hf] at h
      by_cases hfa : toi.falsy = true
      · rw [if_pos hfa] at h; exact Except.noConfusion h
      · rw [if_neg hfa] at h
        by_cases hst : toi = Key.str "*"
        · rw [if_pos hst] at h; exact Except.noConfusion h
        · rw [if_neg hst] at h
          by_cases hcon : Scope.contains stn stn.cur toi = true
          · rw [if_pos hcon] at h; exact Except.noConfusion h
          · rw [if_neg hcon] at h
            cases hl : Scope.lookup stn sid toi with
            | none => simp only [hl] at h; exact Except.noConfusion h
            | some v =>
              simp only [hl] at h
              cases hd : defineS stn stn.cur toi v with
              | error e => simp only [hd] at h; exact Except.noConfusion h
              | ok st2 =>
                simp only [hd, Except.ok.injEq, Prod.mk.injEq] at h
                rw [← h.2]
                exact typePres_trans hpres (defineS_typePres stn stn.cur toi v st2 hd)

/-- Assignable evaluation never changes any existing object's type. -/
theorem visitAssignable_typePres (a : Assignable) (st : St) (v : Value) (st' : St)
    (h : Dizzy.visitAssignable a st = Except.ok (v, st')) : typePres st st' := by
  cases a with
  | ref r =>
    unfold Dizzy.visitAssignable at h
    cases hna : Dizzy.visitName_or_attr r st with
    | error e => simp only [hna] at h; exact Except.noConfusion h
    | ok p =>
      obtain ⟨⟨sid, name⟩, stn⟩ := p
      simp only [hna] at h
      cases hl : Scope.lookup stn sid name with
      | none => simp only [hl] at h; exact Except.noConfusion h
      | some w =>
        simp only [hl, Except.ok.injEq, Prod.mk.injEq] at h
        rw [← h.2]
        exact typePres_of_objsEq (visitName_or_attr_objs r st (sid, name) stn hna)
  | newStmt r => exact visitNew_typePres r st v st' h
  | number t =>
    unfold Dizzy.visitAssignable at h
    cases hp : pyParseInt t with
    | some n =>
      simp only [hp, Except.ok.injEq, Prod.mk.injEq] at h
      rw [← h.2]; exact typePres_refl st
    | none =>
      simp only [hp, Except.ok.injEq, Prod.mk.injEq] at h
      rw [← h.2]; exact typePres_refl st
  | strLit t =>
    simp only [Dizzy.visitAssignable, Except.ok.injEq, Prod.mk.injEq] at h
    rw [← h.2]; exact typePres_refl st
  | boolean t =>
    simp only [Dizzy.visitAssignable, Except.ok.injEq, Prod.mk.injEq] at h
    rw [← h.2]; exact typePres_refl st

/-- Assignments never change any existing object's type. -/
theorem visitAssign_typePres (target : NameOrAttr) (a : Assignable) (st : St) (u : Unit)
    (st' : St) (h : Dizzy.visitAssign_stmt target a st = Except.ok (u, st')) :
    typePres st st' := by
  unfold Dizzy.visitAssign_stmt at h
  cases hna : Dizzy.visitName_or_attr target st with
  | error e => simp only [hna] at h; exact Except.noConfusion h
  | ok p =>
    obtain ⟨⟨sid, name⟩, stn⟩ := p
    simp only [hna] at h
    cases hva : Dizzy.visitAssignable a stn with
    | error e => simp only [hva] at h; exact Except.noConfusion h
    | ok q =>
      obtain ⟨assignable, st1⟩ := q
      simp only [hva] at h
      have hpres : typePres st st1 :=
        typePres_trans
          (typePres_of_objsEq (visitName_or_attr_objs target st (sid, name) stn hna))
          (visitAssignable_typePres a stn assignable st1 hva)
      have hfin : ∀ (attrVal : Value) (st2 : St),
          defineS st1 sid name attrVal = Except.ok st2 → st' = st2 → typePres st st' := by
        intro attrVal st2 hd he
        rw [he]
        exact typePres_trans hpres (defineS_typePres st1 sid name attrVal st2 hd)
      cases assignable with
      | base bb =>
        cases bb with
        | obj o =>
          cases ho : st1.objs[o]? with
          | none => simp only [ho] at h; exact Except.noConfusion h
          | some od =>
            simp only [ho] at h
            cases hd : defineS st1 sid name (Value.attr (TypeTag.cls od.type_) (Base.obj o)) with
            | error e => simp only [hd] at h; exact Except.noConfusion h
            | ok st2 =>
              simp only [hd, Except.ok.injEq, Prod.mk.injEq] at h
              exact hfin _ st2 hd h.2.symm
        | cls c =>
          cases hd : defineS st1 sid name (Value.attr TypeTag.classType (Base.cls c)) with
          | error e => simp only [hd] at h; exact Except.noConfusion h
          | ok st2 =>
            simp only [hd, Except.ok.injEq, Prod.mk.injEq] at h
            exact hfin _ st2 hd h.2.symm
        | prim p' =>
          cases hd : defineS st1 sid name (Value.attr (primTag p') (Base.prim p')) with
          | error e => simp only [hd] at h; exact Except.noConfusion h
          | ok st2 =>
            simp only [hd, Except.ok.injEq, Prod.mk.injEq] at h
            exact hfin _ st2 hd h.2.symm
      | attr t bb =>
        cases hd : defineS st1 sid name (Value.attr t bb) with
        | error e => simp only [hd] at h; exact Except.noConfusion h
        | ok st2 =>
          simp only [hd, Except.ok.injEq, Prod.mk.injEq] at h
          exact hfin _ st2 hd h.2.symm
      | scope ss => simp only [] at h; exact Except.noConfusion h

/-- A block definition never returns successfully. -/
theorem visitBlockdef_no_ok (n bt : String) (fr : Option NameOrAttr) (body : List Stmt)
    (st : St) (x : Unit × St) (h : Dizzy.visitBlockdef n bt fr body st = Except.ok x) :
    False := by
  unfold Dizzy.visitBlockdef at h
  by_cases hcon : Scope.contains st st.cur (Dizzy.visitName n) = true
  · rw [if_pos hcon] at h; exact Except.noConfusion h
  · rw [if_neg hcon] at h
    cases hbt : Dizzy.visitBlocktype bt st with
    | error e => simp only [hbt] at h; exact Except.noConfusion h
    | ok p => simp only [hbt] at h; exact Except.noConfusion h



/-- C3: the retype statement: an object operand that is not directly a
`types.Object` fails with AtoTypeError; a target that is not a
`types.Class` fails with AtoTypeError; a target that is not a subclass of
the object's current declared type fails with AtoTypeError; otherwise the
object's `type_` is mutated in place - the result state differs from the
input state only in that one object's `type_` field - and no other
statement kind ever changes the `type_` of an existing object (last
conjunct). -/
theorem visitRetype_stmt_correct
    (objRef targetRef : NameOrAttr) (st0 st1 st2 : St) (s1 s2 : Nat) (k1 k2 : Key)
    (h1 : Dizzy.visitName_or_attr objRef st0 = Except.ok ((s1, k1), st1))
    (h2 : Dizzy.visitName_or_attr targetRef st1 = Except.ok ((s2, k2), st2)) :
    (∀ v : Value, Scope.lookup st2 s1 k1 = some v →
      (∀ o : Nat, v ≠ Value.base (Base.obj o)) →
      Dizzy.visitRetype_stmt objRef targetRef st0
        = Except.error (Err.atoTypeError
            ("Can only retype objects, which '" ++ k1.text ++ "' is not")))
    ∧ (∀ (o : Nat) (w : Value), Scope.lookup st2 s1 k1 = some (Value.base (Base.obj o)) →
      Scope.lookup st2 s2 k2 = some w →
      (∀ c : ClassRef, w ≠ Value.base (Base.cls c)) →
      Dizzy.visitRetype_stmt objRef targetRef st0
        = Except.error (Err.atoTypeError
            ("Can only retype to classes, which '" ++ k2.text ++ "' is not")))
    ∧ (∀ (o : Nat) (od : ObjData) (c : ClassRef),
      Scope.lookup st2 s1 k1 = some (Value.base (Base.obj o)) →
      Scope.lookup st2 s2 k2 = some (Value.base (Base.cls c)) →
      st2.objs[o]? = some od →
      is_subclass_of st2 c od.type_ = false →
      ∃ m, Dizzy.visitRetype_stmt objRef targetRef st0
        = Except.error (Err.atoTypeError m))
    ∧ (∀ (o : Nat) (od : ObjData) (c : ClassRef),
      Scope.lookup st2 s1 k1 = some (Value.base (Base.obj o)) →
      Scope.lookup st2 s2 k2 = some (Value.base (Base.cls c)) →
      st2.objs[o]? = some od →
      is_subclass_of st2 c od.type_ = true →
      Dizzy.visitRetype_stmt objRef targetRef st0
        = Except.ok ((), { st2 with objs := st2.objs.set o ({ od with type_ := c }) }))
    ∧ (∀ (s : Stmt) (stA stB : St) (u : Unit), s.isRetype = false →
      Dizzy.visitStmt s stA = Except.ok (u, stB) → typePres stA stB) := by
  refine ⟨?_, ?_, ?_, ?_, ?_⟩
  · intro v hv hno
    unfold Dizzy.visitRetype_stmt
    simp only [h1, h2, hv]
  · intro o w ho hw hnc
    unfold Dizzy.visitRetype_stmt
    simp only [h1, h2, ho, hw]
  · intro o od c ho hw hod hsub
    refine ⟨"Cannot retype '" ++ k1.text ++ "' to '" ++ k2.text ++ "' because '"
      ++ k2.text ++ "' is not a subclass of '" ++ classNameOf st2 od.type_ ++ "'", ?_⟩
    unfold Dizzy.visitRetype_stmt
    simp only [h1, h2, ho, hw, hod, hsub, Bool.false_eq_true, if_false]
  · intro o od c ho hw hod hsub
    unfold Dizzy.visitRetype_stmt
    simp only [h1, h2, ho, hw, hod, hsub, if_true]
  · intro s stA stB u hnr h
    cases s with
    | blockdef n bt fr body =>
      exact absurd h (fun hh => visitBlockdef_no_ok n bt fr body stA (u, stB) hh)
    | pindef tok =>
      unfold Dizzy.visitStmt at h
      cases hp : Dizzy.visitPindef_stmt tok stA with
      | error e => simp only [hp] at h; exact Except.noConfusion h
      | ok p =>
        obtain ⟨v, stP⟩ := p
        simp only [hp, Except.ok.injEq, Prod.mk.injEq] at h
        rw [← h.2]
        exact visitPindef_typePres tok stA v stP hp
    | signaldef t =>
      unfold Dizzy.visitStmt at h
      cases hp : Dizzy.visitSignaldef_stmt t stA with
      | error e => simp only [hp] at h; exact Except.noConfusion h
      | ok p =>
        obtain ⟨v, stP⟩ := p
        simp only [hp, Except.ok.injEq, Prod.mk.injEq] at h
        rw [← h.2]
        exact visitSignaldef_typePres t stA v stP hp
    | importStmt f w =>
      exact visitImport_typePres f w stA u stB h
    | connect a b =>
      unfold Dizzy.visitStmt at h
      cases hp : Dizzy.visitConnect_stmt a b stA with
      | error e => simp only [hp] at h; exact Except.noConfusion h
      | ok p =>
        obtain ⟨lid, stP⟩ := p
        simp only [hp, Except.ok.injEq, Prod.mk.injEq] at h
        rw [← h.2]
        exact visitConnect_typePres a b stA lid stP hp
    | withStmt =>
      unfold Dizzy.visitStmt Dizzy.visitWith_stmt at h
      exact Except.noConfusion h
    | assign t a =>
      exact visitAssign_typePres t a stA u stB h
    | retype a b =>
      simp only [Stmt.isRetype] at hnr
      exact Bool.noConfusion hnr

/-- Witness: retyping a directly bound Interface instance to a class
subclassing the Interface built-in succeeds and rewrites exactly that
object's type. -/
theorem visitRetype_stmt_correct_witness :
    Dizzy.visitName_or_attr (NameOrAttr.name "sig") stC3w
      = Except.ok ((stC3w.cur, Key.str "sig"), stC3w)
    ∧ Dizzy.visitName_or_attr (NameOrAttr.name "Sig2") stC3w
      = Except.ok ((stC3w.cur, Key.str "Sig2"), stC3w)
    ∧ Scope.lookup stC3w stC3w.cur (Key.str "sig") = some (Value.base (Base.obj 0))
    ∧ Scope.lookup stC3w stC3w.cur (Key.str "Sig2")
        = some (Value.base (Base.cls (ClassRef.user 0)))
    ∧ stC3w.objs[0]? = some ({ type_ := ClassRef.builtin Builtin.INTERFACE })
    ∧ is_subclass_of stC3w (ClassRef.user 0) (ClassRef.builtin Builtin.INTERFACE) = true
    ∧ Dizzy.visitRetype_stmt (NameOrAttr.name "sig") (NameOrAttr.name "Sig2") stC3w
      = Except.ok ((), { stC3w with objs := stC3w.objs.set 0 ({ type_ := ClassRef.user 0 }) }) :=
  ⟨rfl, rfl, rfl, rfl, rfl, rfl,
    (visitRetype_stmt_correct (NameOrAttr.name "sig") (NameOrAttr.name "Sig2")
        stC3w stC3w stC3w stC3w.cur stC3w.cur (Key.str "sig") (Key.str "Sig2")
        rfl rfl).2.2.2.1 0 ({ type_ := ClassRef.builtin Builtin.INTERFACE })
      (ClassRef.user 0) rfl rfl rfl rfl⟩


end Atopile
